import Mathlib

/-!
The p11perftest benchmark harness, its outcome model and the OAEP payload bound.

A shallow embedding of the parts of p11perftest that the verified properties
are about.

* src/src/p11benchmark.hpp : the outcome type (a std::variant of five
  alternatives), the exception classes a hook can throw, the virtual hooks of
  the abstract class P11Benchmark and the signature of P11Benchmark::execute.
* src/src/p11oaepenc.hpp, src/src/p11oaepenc.cpp : the OAEP encryption variant,
  with is_payload_supported and prepare.

The body of P11Benchmark::execute and of the timer primitives lives in
p11benchmark.cpp, which is not among the sources; these are modelled from the
specification (section 4.2 and 4.3) and marked as such.

Machine integers of type size_t are natural numbers, reduced modulo 2^64 where
the source computes with them.  Durations (milliseconds_double_t) are exact
tick counts.  Byte vectors are lists of natural numbers.
-/

namespace P11

/-! ## Outcome model (namespace benchmark_result of p11benchmark.hpp) -/

/-- The duration type of the timing vector, counted in clock ticks. -/
abbrev milliseconds_double_t := Nat

/-- The type operation_outcome_t, a std::variant with the five alternatives
Ok, ApiErr, NotFound, AmbiguousResult, PayloadSizeNotSupported, in the order
of the source.  ApiErr is the integer type returned by error_code(); the two
search exceptions are built from a label, the payload exception from a size. -/
inductive operation_outcome_t where
  | Ok
  | ApiErr (code : Int)
  | NotFound (label : String)
  | AmbiguousResult (label : String)
  | PayloadSizeNotSupported (size : Nat)
  deriving DecidableEq, Repr

/-- The index of the alternative held, as std::variant::index() reports it. -/
def operation_outcome_t.index : operation_outcome_t → Nat
  | .Ok => 0
  | .ApiErr _ => 1
  | .NotFound _ => 2
  | .AmbiguousResult _ => 3
  | .PayloadSizeNotSupported _ => 4

/-- What a hook can throw: a token-interface return code
(Botan::PKCS11::PKCS11_ReturnError, carrying error_code()), or one of the three
exception classes declared in namespace benchmark_result. -/
inductive HookError where
  | ReturnError (code : Int)
  | NotFound (label : String)
  | AmbiguousResult (label : String)
  | PayloadSizeNotSupported (size : Nat)
  deriving DecidableEq, Repr

/-! ## The abstract class P11Benchmark -/

/-- The data members of P11Benchmark that the harness touches (m_name, m_label,
m_timer, m_last_clock, m_payload), the reading of the high resolution clock in
the current state, and, in derived, the members of the concrete variant
together with the token session it works on. -/
structure P11Benchmark (τ : Type) where
  m_name : String
  m_label : String
  m_timer : milliseconds_double_t
  m_last_clock : Nat
  m_payload : List Nat
  now : Nat
  derived : τ

/-- The virtual member functions of P11Benchmark that a variant provides.  A
hook is a state transformer that may throw: it returns the state it leaves
behind and the exception, if any.  The default of is_payload_supported is the
constant true, the default of cleanup and teardown does nothing. -/
structure Variant (τ : Type) where
  is_payload_supported : P11Benchmark τ → Nat → Bool
  prepare : Option Nat → P11Benchmark τ → Option HookError × P11Benchmark τ
  crashtestdummy : P11Benchmark τ → Option HookError × P11Benchmark τ
  cleanup : P11Benchmark τ → Option HookError × P11Benchmark τ
  teardown : Option Nat → P11Benchmark τ → Option HookError × P11Benchmark τ

/-- Modelled from the spec: the body of P11Benchmark::reset_timer is in
p11benchmark.cpp, which is missing.  Section 4.2: reset zeroes the accumulator
and records a fresh baseline instant. -/
def P11Benchmark.reset_timer {τ : Type} (b : P11Benchmark τ) : P11Benchmark τ :=
  { b with m_timer := 0, m_last_clock := b.now }

/-- The inline member elapsed() of p11benchmark.hpp: it returns m_timer. -/
def P11Benchmark.elapsed {τ : Type} (b : P11Benchmark τ) : milliseconds_double_t :=
  b.m_timer

/-! ## Execution harness -/

/-- The four hooks the harness invokes. -/
inductive Hook where
  | prepare
  | crashtestdummy
  | cleanup
  | teardown
  deriving DecidableEq, Repr

/-- One observable step of a run: the invocation of a hook together with the
exception it threw (none when it returned normally), or the appending of an
elapsed-time snapshot to the timing vector. -/
inductive Event where
  | call (h : Hook) (err : Option HookError)
  | sample (t : milliseconds_double_t)
  deriving DecidableEq, Repr

/-- Modelled from the spec: the classification of a thrown error into an
outcome is part of P11Benchmark::execute (p11benchmark.cpp, missing).  Section
4.1: a return code becomes the transport error carrying that code, the two
search failures and the payload rejection keep their own alternative. -/
def classify : HookError → operation_outcome_t
  | .ReturnError code => .ApiErr code
  | .NotFound label => .NotFound label
  | .AmbiguousResult label => .AmbiguousResult label
  | .PayloadSizeNotSupported size => .PayloadSizeNotSupported size

/-- The state of a run in progress: the benchmark object, the timing vector
gathered, the events observed, and the error that stopped it, if any. -/
structure Progress (τ : Type) where
  state : P11Benchmark τ
  records : List milliseconds_double_t
  trace : List Event
  error : Option HookError

/-- Modelled from the spec: the iteration loop of P11Benchmark::execute
(p11benchmark.cpp, missing).  Section 4.3, transitions 2, 3 and 5: each
repetition calls the measured operation; in the measuring phase the harness
then takes an elapsed-time snapshot and appends it to the timing sample; then
it invokes the cleanup hook before the next repetition.  A hook that raises
stops the loop at once.  The flag measured distinguishes the measuring phase
from the warm-up. -/
def iterate {τ : Type} (v : Variant τ) (measured : Bool) :
    Nat → P11Benchmark τ → Progress τ
  | 0, b => ⟨b, [], [], none⟩
  | k + 1, b =>
    match v.crashtestdummy b with
    | (some e, b1) => ⟨b1, [], [Event.call Hook.crashtestdummy (some e)], some e⟩
    | (none, b1) =>
      let recs : List milliseconds_double_t := if measured then [b1.elapsed] else []
      let evs : List Event := if measured then [Event.sample b1.elapsed] else []
      match v.cleanup b1 with
      | (some e, b2) =>
        ⟨b2, recs,
          Event.call Hook.crashtestdummy none :: (evs ++ [Event.call Hook.cleanup (some e)]),
          some e⟩
      | (none, b2) =>
        let r := iterate v measured k b2
        ⟨r.state, recs ++ r.records,
          Event.call Hook.crashtestdummy none :: (evs ++ Event.call Hook.cleanup none :: r.trace),
          r.error⟩

/-- Modelled from the spec: the part of P11Benchmark::execute between the
payload check and teardown (p11benchmark.cpp, missing).  Section 4.3,
transitions 1 to 3: prepare is invoked once; then skipiterations warm-up
repetitions without recording; then the timer is reset and iterations measured
repetitions follow.  An error in any of them ends the phase sequence. -/
def lifecycle {τ : Type} (v : Variant τ) (b : P11Benchmark τ)
    (iterations skipiterations : Nat) (threadindex : Option Nat) : Progress τ :=
  match v.prepare threadindex b with
  | (some e, b1) => ⟨b1, [], [Event.call Hook.prepare (some e)], some e⟩
  | (none, b1) =>
    let w := iterate v false skipiterations b1
    match w.error with
    | some e => ⟨w.state, [], Event.call Hook.prepare none :: w.trace, some e⟩
    | none =>
      let m := iterate v true iterations w.state.reset_timer
      ⟨m.state, m.records, Event.call Hook.prepare none :: (w.trace ++ m.trace), m.error⟩

/-- The value returned by execute (the pair of the timing vector and the
outcome, benchmark_result_t), with the state the run leaves behind and the
events observed during the run. -/
structure RunResult (τ : Type) where
  records : List milliseconds_double_t
  outcome : operation_outcome_t
  trace : List Event
  state : P11Benchmark τ

/-- Modelled from the spec: the final outcome of a run, computed in
P11Benchmark::execute (p11benchmark.cpp, missing).  The failure that stopped
the run decides the outcome; a failure of teardown is reported when nothing
failed before it (section 7: never silently swallowed); otherwise Ok. -/
def final_outcome (err terr : Option HookError) : operation_outcome_t :=
  match err, terr with
  | some e, _ => classify e
  | none, some e => classify e
  | none, none => operation_outcome_t.Ok

/-- Modelled from the spec: P11Benchmark::execute, declared in
p11benchmark.hpp and defined in p11benchmark.cpp, which is missing.
Sections 4.3, 4.4, 7 and 8: a payload size that the acceptance check of the
variant rejects is detected before prepare runs and gives the outcome
PayloadSizeNotSupported with that size; otherwise the payload is stored, the
lifecycle runs, and teardown is invoked once, also after a failure; the
timing vector gathered so far is returned with the final outcome. -/
def execute {τ : Type} (v : Variant τ) (b : P11Benchmark τ) (payload : List Nat)
    (iterations skipiterations : Nat) (threadindex : Option Nat) : RunResult τ :=
  if v.is_payload_supported b payload.length then
    let p := lifecycle v { b with m_payload := payload } iterations skipiterations threadindex
    match v.teardown threadindex p.state with
    | (terr, b1) =>
      ⟨p.records, final_outcome p.error terr,
        p.trace ++ [Event.call Hook.teardown terr], b1⟩
  else
    ⟨[], operation_outcome_t.PayloadSizeNotSupported payload.length, [], b⟩

/-! ## Vocabulary for traces -/

/-- Whether an event is the invocation of the hook h. -/
def Event.isCall (h : Hook) : Event → Bool
  | .call g _ => decide (g = h)
  | .sample _ => false

/-- Whether an event is a hook invocation that threw. -/
def Event.failed : Event → Bool
  | .call _ (some _) => true
  | _ => false

/-- Number of invocations of the hook h in a trace. -/
def invocations (h : Hook) (tr : List Event) : Nat :=
  tr.countP (Event.isCall h)

/-- The hooks invoked in a trace, in order, snapshots left out. -/
def hookCalls : List Event → List Hook
  | [] => []
  | .call h _ :: rest => h :: hookCalls rest
  | .sample _ :: rest => hookCalls rest

/-- The snapshots appended to the timing vector in a trace, in order. -/
def samples : List Event → List milliseconds_double_t
  | [] => []
  | .sample t :: rest => t :: samples rest
  | .call _ _ :: rest => samples rest

/-- The first hook invocation of a trace that threw, with what it threw. -/
def firstFailure : List Event → Option (Hook × HookError)
  | [] => none
  | .call h (some e) :: _ => some (h, e)
  | _ :: rest => firstFailure rest

/-- The events that precede the first failing hook invocation (the whole trace
when no hook fails). -/
def beforeFailure : List Event → List Event
  | [] => []
  | .call _ (some _) :: _ => []
  | ev :: rest => ev :: beforeFailure rest

/-- The events that follow the first failing hook invocation (none when no
hook fails). -/
def afterFailure : List Event → List Event
  | [] => []
  | .call _ (some _) :: rest => rest
  | _ :: rest => afterFailure rest

/-- The trace of one warm-up repetition without failure. -/
def warmupRound : List Event :=
  [Event.call Hook.crashtestdummy none, Event.call Hook.cleanup none]

/-! ## The OAEP encryption variant (p11oaepenc.hpp, p11oaepenc.cpp) -/

/-- Multiplication of two size_t values, 64 bits wide. -/
def size_t_mul (a b : Nat) : Nat := (a * b) % 2 ^ 64

/-- Subtraction of two size_t values, 64 bits wide: it wraps around. -/
def size_t_sub (a b : Nat) : Nat := (a + 2 ^ 64 - b % 2 ^ 64) % 2 ^ 64

/-- The enumeration P11OAEPEncryptBenchmark::HashAlg. -/
inductive HashAlg where
  | SHA1
  | SHA256
  deriving DecidableEq, Repr

/-- The attribute types of the token interface that the variants read. -/
inductive AttributeType where
  | Class
  | Label
  | Modulus
  deriving DecidableEq, Repr

/-- A token object as prepare sees it: its handle, and the reading of an
attribute value, which gives the bytes or fails with a return code. -/
structure Object where
  handle : Nat
  get_attribute_value : AttributeType → Except Int (List Nat)

/-- PKCS 11 mechanism type CKM_SHA_1. -/
def CKM_SHA_1 : Nat := 0x220
/-- PKCS 11 mechanism type CKM_SHA256. -/
def CKM_SHA256 : Nat := 0x250
/-- PKCS 11 mask generation function CKG_MGF1_SHA1. -/
def CKG_MGF1_SHA1 : Nat := 1
/-- PKCS 11 mask generation function CKG_MGF1_SHA256. -/
def CKG_MGF1_SHA256 : Nat := 2
/-- PKCS 11 source type CKZ_DATA_SPECIFIED. -/
def CKZ_DATA_SPECIFIED : Nat := 1

/-- The structure CK_RSA_PKCS_OAEP_PARAMS, without the source data pointer. -/
structure CK_RSA_PKCS_OAEP_PARAMS where
  hashAlg : Nat
  mgf : Nat
  source : Nat
  ulSourceDataLen : Nat
  deriving DecidableEq, Repr

/-- The data members that P11OAEPEncryptBenchmark adds to P11Benchmark, with
the initial values of the class definition. -/
structure P11OAEPEncryptBenchmark where
  m_hashalg : HashAlg
  m_encrypted : List Nat := []
  m_objhandle : Nat := 0
  m_modulus_size_bytes : Nat := 0
  m_rsa_pkcs_oaep_params : CK_RSA_PKCS_OAEP_PARAMS :=
    ⟨CKM_SHA_1, CKG_MGF1_SHA1, CKZ_DATA_SPECIFIED, 0⟩
  deriving DecidableEq, Repr

/-- The member std::vector::resize: truncate, or pad with zero bytes. -/
def resize (v : List Nat) (n : Nat) : List Nat :=
  (v ++ List.replicate (n - v.length) 0).take n

/-- P11OAEPEncryptBenchmark::is_payload_supported (p11oaepenc.cpp, 65-75). -/
def P11OAEPEncryptBenchmark.is_payload_supported (self : P11OAEPEncryptBenchmark)
    (payload_size : Nat) : Bool :=
  if self.m_modulus_size_bytes = 0 then true
  else
    let hash_len : Nat := if self.m_hashalg = HashAlg.SHA1 then 20 else 32
    let max_payload : Nat :=
      size_t_sub (size_t_sub self.m_modulus_size_bytes (size_t_mul 2 hash_len)) 2
    decide (payload_size ≤ max_payload)

/-- P11OAEPEncryptBenchmark::prepare (p11oaepenc.cpp, 77-101): it stores the
handle, reads the modulus of the key and keeps its length, resizes the output
buffer and sets the OAEP parameters after the hash algorithm.  When the
attribute cannot be read the return code is thrown, with only the handle
stored. -/
def P11OAEPEncryptBenchmark.prepare (self : P11OAEPEncryptBenchmark) (obj : Object) :
    Option HookError × P11OAEPEncryptBenchmark :=
  let s1 := { self with m_objhandle := obj.handle }
  match obj.get_attribute_value AttributeType.Modulus with
  | .error code => (some (HookError.ReturnError code), s1)
  | .ok modulus =>
    let s2 := { s1 with
      m_modulus_size_bytes := modulus.length,
      m_encrypted := resize s1.m_encrypted modulus.length }
    match s2.m_hashalg with
    | HashAlg.SHA1 =>
      (none, { s2 with m_rsa_pkcs_oaep_params :=
        { s2.m_rsa_pkcs_oaep_params with hashAlg := CKM_SHA_1, mgf := CKG_MGF1_SHA1 } })
    | HashAlg.SHA256 =>
      (none, { s2 with m_rsa_pkcs_oaep_params :=
        { s2.m_rsa_pkcs_oaep_params with hashAlg := CKM_SHA256, mgf := CKG_MGF1_SHA256 } })

/-- The digest length in bytes of a hash algorithm. -/
def HashAlg.digest_length : HashAlg → Nat
  | .SHA1 => 20
  | .SHA256 => 32

/-! ## Concrete inputs used to exercise the definitions -/

/-- A variant over a counter: the acceptance check answers accept, each hook
throws what it is given (or returns normally), and crashtestdummy counts its
invocations and adds three ticks to the timer. -/
def scripted (accept : Bool) (prep ctd cln td : Option HookError) : Variant Nat where
  is_payload_supported := fun _ _ => accept
  prepare := fun _ b => (prep, b)
  crashtestdummy := fun b =>
    (ctd, { b with m_timer := b.m_timer + 3, now := b.now + 3, derived := b.derived + 1 })
  cleanup := fun b => (cln, b)
  teardown := fun _ b => (td, b)

/-- A freshly constructed benchmark object over a counter. -/
def fresh : P11Benchmark Nat :=
  { m_name := "fixture", m_label := "key", m_timer := 0, m_last_clock := 0,
    m_payload := [], now := 0, derived := 0 }

/-- A key object whose modulus has n bytes. -/
def keyWithModulus (n : Nat) : Object where
  handle := 7
  get_attribute_value := fun a =>
    match a with
    | AttributeType.Modulus => Except.ok (List.replicate n 1)
    | _ => Except.error 0x12

/-! ## The default acceptance check and the fixed-transform variants -/

/-- The default of the virtual member is_payload_supported (p11benchmark.hpp,
185-186): it returns true. -/
def P11Benchmark.is_payload_supported {τ : Type} (_b : P11Benchmark τ)
    (_payload_size : Nat) : Bool :=
  true

/-- The data members that P11AESGCMBenchmark adds (p11aesgcm.hpp): the
initialization vector, the output buffer and the key handle. -/
structure P11AESGCMBenchmark where
  m_iv : List Nat
  m_encrypted : List Nat
  m_objhandle : Nat
  deriving DecidableEq, Repr

/-- The data members that P11HMACSHA1Benchmark adds (p11hmacsha1.hpp). -/
structure P11HMACSHA1Benchmark where
  m_digest : List Nat
  m_objhandle : Nat
  deriving DecidableEq, Repr

/-- The data members that P11HMACSHA512Benchmark adds (p11hmacsha512.hpp). -/
structure P11HMACSHA512Benchmark where
  m_digest : List Nat
  m_objhandle : Nat
  deriving DecidableEq, Repr

/-- The class P11AESGCMBenchmark overrides prepare, crashtestdummy and clone
only (p11aesgcm.hpp, 78-80); a call of is_payload_supported on it runs the
member of the base class. -/
def P11AESGCMBenchmark.is_payload_supported (b : P11Benchmark P11AESGCMBenchmark)
    (payload_size : Nat) : Bool :=
  P11Benchmark.is_payload_supported b payload_size

/-- The class P11HMACSHA1Benchmark overrides prepare, crashtestdummy and clone
only (p11hmacsha1.hpp, 65-67); a call of is_payload_supported on it runs the
member of the base class. -/
def P11HMACSHA1Benchmark.is_payload_supported (b : P11Benchmark P11HMACSHA1Benchmark)
    (payload_size : Nat) : Bool :=
  P11Benchmark.is_payload_supported b payload_size

/-- The class P11HMACSHA512Benchmark overrides prepare, crashtestdummy and
clone only (p11hmacsha512.hpp, 64-66); a call of is_payload_supported on it
runs the member of the base class. -/
def P11HMACSHA512Benchmark.is_payload_supported (b : P11Benchmark P11HMACSHA512Benchmark)
    (payload_size : Nat) : Bool :=
  P11Benchmark.is_payload_supported b payload_size

/-- The data members that P11AESCBCBenchmark adds (p11aescbc.hpp): an
initialization vector of 16 bytes, the output buffer and the key handle. -/
structure P11AESCBCBenchmark where
  m_iv : List Nat
  m_encrypted : List Nat
  m_objhandle : Nat
  deriving DecidableEq, Repr

/-- The data members that P11DES3CBCBenchmark adds (p11des3cbc.hpp): an
initialization vector of 8 bytes, the output buffer and the key handle. -/
structure P11DES3CBCBenchmark where
  m_iv : List Nat
  m_encrypted : List Nat
  m_objhandle : Nat
  deriving DecidableEq, Repr

/-- The data members that P11DES3ECBBenchmark adds (p11des3ecb.hpp). -/
structure P11DES3ECBBenchmark where
  m_encrypted : List Nat
  m_objhandle : Nat
  deriving DecidableEq, Repr

/-- Modelled from the spec: P11AESCBCBenchmark::is_payload_supported is declared
in p11aescbc.hpp and defined in p11aescbc.cpp, which is missing.  Sections 4.4
and 8: an unauthenticated block mode accepts a size exactly when it is a
multiple of the block size; the block size of AES is 16 bytes (p11aescbc.hpp,
payload must be multiple of 16). -/
def P11AESCBCBenchmark.is_payload_supported (_self : P11AESCBCBenchmark)
    (payload_size : Nat) : Bool :=
  payload_size % 16 == 0

/-- Modelled from the spec: P11DES3CBCBenchmark::is_payload_supported is
declared in p11des3cbc.hpp and defined in p11des3cbc.cpp, which is missing.
Sections 4.4 and 8, with the block size of DES, 8 bytes (p11des3cbc.hpp,
payload must be multiple of 8). -/
def P11DES3CBCBenchmark.is_payload_supported (_self : P11DES3CBCBenchmark)
    (payload_size : Nat) : Bool :=
  payload_size % 8 == 0

/-- Modelled from the spec: P11DES3ECBBenchmark::is_payload_supported is
declared in p11des3ecb.hpp and defined in p11des3ecb.cpp, which is missing.
Sections 4.4 and 8, with the block size of DES, 8 bytes (p11des3ecb.hpp,
payload must be multiple of 8). -/
def P11DES3ECBBenchmark.is_payload_supported (_self : P11DES3ECBBenchmark)
    (payload_size : Nat) : Bool :=
  payload_size % 8 == 0

/-- The member prepare of the OAEP encryption variant as the hook that the
harness invokes on the whole object: it works on the members of the derived
class and does not read or write those of the base class, m_payload
included. -/
def P11OAEPEncryptBenchmark.prepare_hook (obj : Object) (_threadindex : Option Nat)
    (b : P11Benchmark P11OAEPEncryptBenchmark) :
    Option HookError × P11Benchmark P11OAEPEncryptBenchmark :=
  ((b.derived.prepare obj).1, { b with derived := (b.derived.prepare obj).2 })

/-! ## Timer control -/

/-- Modelled from the spec: the body of P11Benchmark::suspend_timer is in
p11benchmark.cpp, which is missing.  Section 4.2: suspend adds the time since
the baseline to the accumulator. -/
def P11Benchmark.suspend_timer {τ : Type} (b : P11Benchmark τ) : P11Benchmark τ :=
  { b with m_timer := b.m_timer + (b.now - b.m_last_clock) }

/-- Modelled from the spec: the body of P11Benchmark::resume_timer is in
p11benchmark.cpp, which is missing.  Section 4.2: resume records a new
baseline without changing the accumulator. -/
def P11Benchmark.resume_timer {τ : Type} (b : P11Benchmark τ) : P11Benchmark τ :=
  { b with m_last_clock := b.now }

/-- Time passes: the clock advances by d ticks.  The clock never runs
backwards. -/
def P11Benchmark.tick {τ : Type} (d : Nat) (b : P11Benchmark τ) : P11Benchmark τ :=
  { b with now := b.now + d }

/-- A call of one of the two timer primitives open to derived classes. -/
inductive TimerCall where
  | suspend_timer
  | resume_timer
  deriving DecidableEq, Repr

/-- The effect of a timer call on the benchmark object. -/
def TimerCall.apply {τ : Type} : TimerCall → P11Benchmark τ → P11Benchmark τ
  | .suspend_timer, b => b.suspend_timer
  | .resume_timer, b => b.resume_timer

/-- A sequence of timer calls, each made after the clock advanced by the given
number of ticks since the call before. -/
def timer_run {τ : Type} : List (Nat × TimerCall) → P11Benchmark τ → P11Benchmark τ
  | [], b => b
  | (d, c) :: rest, b => timer_run rest (c.apply (b.tick d))


/-- A freshly constructed OAEP encryption benchmark object with the given hash
algorithm, holding a payload of n zero bytes. -/
def oaepWithPayload (hashalg : HashAlg) (n : Nat) : P11Benchmark P11OAEPEncryptBenchmark :=
  { m_name := "RSA PKCS#1 OAEP encryption", m_label := "rsa-1", m_timer := 0,
    m_last_clock := 0, m_payload := List.replicate n 0, now := 0,
    derived := { m_hashalg := hashalg } }


/-! ## The token session -/

/-- The object classes of the token interface that the variants use. -/
inductive ObjectClass where
  | SecretKey
  | PublicKey
  | PrivateKey
  deriving DecidableEq, Repr

/-- What the variants set and search in a token object: class and label. -/
structure TokenObject where
  cls : ObjectClass
  label : String
  deriving DecidableEq, Repr

/-- PKCS 11 return value CKR_DEVICE_MEMORY. -/
def CKR_DEVICE_MEMORY : Int := 0x31
/-- PKCS 11 return value CKR_KEY_HANDLE_INVALID. -/
def CKR_KEY_HANDLE_INVALID : Int := 0x60
/-- PKCS 11 return value CKR_OBJECT_HANDLE_INVALID. -/
def CKR_OBJECT_HANDLE_INVALID : Int := 0x82
/-- PKCS 11 mechanism type CKM_XOR_BASE_AND_DATA. -/
def CKM_XOR_BASE_AND_DATA : Nat := 0x364
/-- PKCS 11 mechanism type CKM_ECDH1_DERIVE. -/
def CKM_ECDH1_DERIVE : Nat := 0x1050

/-- Modelled from the spec: the token interface (section 6) is an external
collaborator, not code of the repository.  A session holds the object table of
the token: the handle of an object is the index of its slot, a destroyed
object leaves its slot empty, and the table holds at most capacity objects.
Every call is synchronous and either succeeds or fails with a return code. -/
structure Session where
  slots : List (Option TokenObject)
  capacity : Nat
  deriving DecidableEq, Repr

/-- The objects that live in the token, in the order of their creation. -/
def Session.objects (s : Session) : List TokenObject :=
  s.slots.reduceOption

/-- The number of objects that live in the token. -/
def Session.object_count (s : Session) : Nat :=
  s.objects.length

/-- Whether the handle h refers to a live object. -/
def Session.is_live (s : Session) (h : Nat) : Bool :=
  match s.slots.getD h none with
  | some _ => true
  | none => false

/-- Modelled from the spec: creation of an object on the token (section 6),
common to key generation and derivation.  It fails with CKR_DEVICE_MEMORY when
the table is full; otherwise the object takes a new slot, whose index is the
handle returned. -/
def Session.create_object (s : Session) (o : TokenObject) : Except Int (Nat × Session) :=
  if s.object_count < s.capacity then
    Except.ok (s.slots.length, { s with slots := s.slots ++ [some o] })
  else
    Except.error CKR_DEVICE_MEMORY

/-- Modelled from the spec: the token call C_GenerateKey (section 6), which
generates a key object with the attributes given. -/
def Session.C_GenerateKey (s : Session) (template : TokenObject) : Except Int (Nat × Session) :=
  s.create_object template

/-- Modelled from the spec: the token call C_DeriveKey (section 6), which
derives a new key object from the base key.  It fails with
CKR_KEY_HANDLE_INVALID when the base key handle is not live. -/
def Session.C_DeriveKey (s : Session) (_mechanism : Nat) (base : Nat)
    (template : TokenObject) : Except Int (Nat × Session) :=
  if s.is_live base then s.create_object template
  else Except.error CKR_KEY_HANDLE_INVALID

/-- Modelled from the spec: the token call C_DestroyObject (section 6).  It
fails with CKR_OBJECT_HANDLE_INVALID when the handle is not live; otherwise
the slot is emptied. -/
def Session.C_DestroyObject (s : Session) (h : Nat) : Except Int Session :=
  if s.is_live h then Except.ok { s with slots := s.slots.set h none }
  else Except.error CKR_OBJECT_HANDLE_INVALID

/-- An entry of an attribute container: the class or the label of an object. -/
inductive Attribute where
  | Class (c : ObjectClass)
  | Label (s : String)
  deriving DecidableEq, Repr

/-- The type AttributeContainer of the token interface, as a list of entries. -/
abbrev AttributeContainer := List Attribute

/-- Whether an object has the attribute value asked for. -/
def TokenObject.has (o : TokenObject) : Attribute → Bool
  | .Class c => decide (o.cls = c)
  | .Label l => decide (o.label = l)

/-- Modelled from the spec: the search sequence C_FindObjectsInit,
C_FindObjects, C_FindObjectsFinal of the token (section 6): the handles of the
live objects that have every attribute of the template. -/
def Session.find_objects (s : Session) (template : AttributeContainer) : List Nat :=
  (List.range s.slots.length).filter fun h =>
    match s.slots.getD h none with
    | some o => template.all o.has
    | none => false

/-- A benchmark variant together with the token session its hooks are given. -/
structure WithSession (α : Type) where
  self : α
  session : Session

/-! ## Decimal formatting of an index -/

/-- The character of the decimal digit d. -/
def digit_char (d : Nat) : Char := Char.ofNat (48 + d)

/-- The decimal digits of n, most significant first; fuel bounds the number of
digits and n + 1 is always enough. -/
def decimal : Nat → Nat → List Char
  | 0, _ => []
  | fuel + 1, n =>
    if n < 10 then [digit_char n] else decimal fuel (n / 10) ++ [digit_char (n % 10)]

/-- The number n written in decimal. -/
def to_decimal (n : Nat) : List Char := decimal (n + 1) n

/-- The number n written in decimal and filled with zeros on the left up to
the width given; a number with more digits is written in full. -/
def zero_padded (width n : Nat) : List Char :=
  List.replicate (width - (to_decimal n).length) '0' ++ to_decimal n

/-- The width lowest decimal digits of n, most significant first. -/
def fixed_digits : Nat → Nat → List Char
  | 0, _ => []
  | width + 1, n => fixed_digits width (n / 10) ++ [digit_char (n % 10)]

/-- The number that a list of decimal digit characters denotes. -/
def digits_value (l : List Char) : Nat :=
  l.foldl (fun a c => 10 * a + (c.toNat - 48)) 0

/-! ## The object-search variant (p11findobjects.hpp) -/

/-- The data members that P11FindObjectsBenchmark adds (p11findobjects.hpp,
90-94). -/
structure P11FindObjectsBenchmark where
  m_temp_keys : List Nat
  m_random_indices : List Nat
  m_current_iteration : Nat
  m_base_label : String
  m_search_template : AttributeContainer
  deriving DecidableEq, Repr

/-- Modelled from the spec: the maximum corpus size is read in
p11findobjects.cpp, which is missing.  Section 4.4 and the header: 512 unless
the environment variable P11PERFTEST_FIND_MAXOBJS, given here with its numeric
value when it is set, overrides it. -/
def find_maxobjs (P11PERFTEST_FIND_MAXOBJS : Option Nat) : Nat :=
  match P11PERFTEST_FIND_MAXOBJS with
  | some n => n
  | none => 512

/-- Modelled from the spec: P11FindObjectsBenchmark::is_payload_supported is
declared in p11findobjects.hpp and defined in p11findobjects.cpp, which is
missing.  Section 4.4: the payload size is the corpus cardinality, capped by
the configured maximum. -/
def P11FindObjectsBenchmark.is_payload_supported (P11PERFTEST_FIND_MAXOBJS : Option Nat)
    (_self : P11FindObjectsBenchmark) (payload_size : Nat) : Bool :=
  decide (payload_size ≤ find_maxobjs P11PERFTEST_FIND_MAXOBJS)

/-- Modelled from the spec: the label of the temporary object of index i,
built in p11findobjects.cpp, which is missing.  Header, preparation phase: the
thread label, then -tmp-, then the index on 6 digits. -/
def temp_label (thread_label : String) (i : Nat) : String :=
  thread_label ++ "-tmp-" ++ String.mk (zero_padded 6 i)

/-- Modelled from the spec: the key generation loop of
P11FindObjectsBenchmark::prepare (p11findobjects.cpp, missing).  Header,
preparation phase: one temporary secret key per index, by C_GenerateKey, the
handles kept in order.  A return code of the token is thrown at once. -/
def generate_temp_keys (thread_label : String) :
    Nat → Nat → List Nat → Session → Option HookError × List Nat × Session
  | 0, _, keys, s => (none, keys, s)
  | k + 1, i, keys, s =>
    match s.C_GenerateKey ⟨ObjectClass.SecretKey, temp_label thread_label i⟩ with
    | Except.error code => (some (HookError.ReturnError code), keys, s)
    | Except.ok (h, s1) => generate_temp_keys thread_label k (i + 1) (keys ++ [h]) s1

/-- Modelled from the spec: P11FindObjectsBenchmark::prepare is declared in
p11findobjects.hpp and defined in p11findobjects.cpp, which is missing.
Section 4.4 and the header, preparation phase: it generates as many temporary
keys as the payload size says, labelled after the thread label (computed by
build_threaded_label, also missing, and given here as a function), draws 512
target indices below the corpus size from the random numbers given, and builds
the search template with the class SecretKey and the label of index 0. -/
def P11FindObjectsBenchmark.prepare (build_threaded_label : String → Option Nat → String)
    (random : List Nat) (threadindex : Option Nat)
    (b : P11Benchmark (WithSession P11FindObjectsBenchmark)) :
    Option HookError × P11Benchmark (WithSession P11FindObjectsBenchmark) :=
  let thread_label := build_threaded_label b.m_label threadindex
  match generate_temp_keys thread_label b.m_payload.length 0 [] b.derived.session with
  | (some e, keys, s) =>
    (some e, { b with derived := { self := { b.derived.self with m_temp_keys := keys },
                                   session := s } })
  | (none, keys, s) =>
    (none, { b with derived :=
      { self :=
          { m_temp_keys := keys,
            m_random_indices := (random.take 512).map fun r => r % b.m_payload.length,
            m_current_iteration := 0,
            m_base_label := temp_label thread_label 0,
            m_search_template :=
              [Attribute.Class ObjectClass.SecretKey,
               Attribute.Label (temp_label thread_label 0)] },
        session := s } })

/-- Modelled from the spec: the choice of the target of one search, in
P11FindObjectsBenchmark::crashtestdummy (p11findobjects.cpp, missing).  Header,
benchmark loop: the next index of the list drawn by prepare, cycling. -/
def P11FindObjectsBenchmark.target_index (self : P11FindObjectsBenchmark) : Nat :=
  self.m_random_indices.getD (self.m_current_iteration % self.m_random_indices.length) 0

/-- Modelled from the spec: the update in place of a label, in
P11FindObjectsBenchmark::crashtestdummy (p11findobjects.cpp, missing).  Header,
benchmark loop: only the last 6 digits of the label string are written. -/
def replace_suffix (label : String) (idx : Nat) : String :=
  String.mk (label.data.take (label.length - 6) ++ fixed_digits 6 idx)

/-- Modelled from the spec: the update of the search template, in
P11FindObjectsBenchmark::crashtestdummy (p11findobjects.cpp, missing).  Section
4.4: only the numeric suffix of the label field is mutated, the template is
not rebuilt. -/
def update_template (template : AttributeContainer) (idx : Nat) : AttributeContainer :=
  template.map fun a =>
    match a with
    | Attribute.Label l => Attribute.Label (replace_suffix l idx)
    | Attribute.Class c => Attribute.Class c

/-- The label a search template asks for (empty when it has none). -/
def template_label : AttributeContainer → String
  | [] => ""
  | Attribute.Label l :: _ => l
  | Attribute.Class _ :: rest => template_label rest

/-- Modelled from the spec: P11FindObjectsBenchmark::crashtestdummy is declared
in p11findobjects.hpp and defined in p11findobjects.cpp, which is missing.
Section 4.4 and the header, benchmark loop: it takes the next target index,
writes it into the label of the search template, runs the search sequence,
and signals NotFound when no object matches and AmbiguousResult when more than
one does. -/
def P11FindObjectsBenchmark.crashtestdummy
    (b : P11Benchmark (WithSession P11FindObjectsBenchmark)) :
    Option HookError × P11Benchmark (WithSession P11FindObjectsBenchmark) :=
  let self := b.derived.self
  let template := update_template self.m_search_template self.target_index
  let b1 : P11Benchmark (WithSession P11FindObjectsBenchmark) :=
    { b with derived :=
      { self := { self with m_current_iteration := self.m_current_iteration + 1,
                            m_search_template := template },
        session := b.derived.session } }
  match b.derived.session.find_objects template with
  | [] => (some (HookError.NotFound (template_label template)), b1)
  | [_] => (none, b1)
  | _ => (some (HookError.AmbiguousResult (template_label template)), b1)

/-! ## The derive-and-destroy variants (p11xorkeydataderive.hpp, p11ecdh1derive.hpp) -/

/-- The data members that P11XorKeyDataDeriveBenchmark adds
(p11xorkeydataderive.hpp, 63-72); m_template holds the attributes of the key to
derive. -/
structure P11XorKeyDataDeriveBenchmark where
  m_xor_data : List Nat :=
    [0x00, 0xff, 0x00, 0xff, 0x00, 0xff, 0x00, 0xff, 0x00, 0xff, 0x00, 0xff, 0x00, 0xff, 0x00, 0xff]
  m_objhandle : Nat
  m_derivedkey : Nat
  m_template : TokenObject
  deriving DecidableEq, Repr

/-- The data members that P11ECDH1DeriveBenchmark adds (p11ecdh1derive.hpp,
64-80); the derivation parameters are kept as the public data of the peer. -/
structure P11ECDH1DeriveBenchmark where
  m_ecdh1_derive_params : List Nat
  m_objhandle : Nat
  m_derivedkey : Nat
  m_template : TokenObject
  deriving DecidableEq, Repr

/-- Modelled from the spec: P11XorKeyDataDeriveBenchmark::crashtestdummy is
declared in p11xorkeydataderive.hpp and defined in p11xorkeydataderive.cpp,
which is missing.  Section 4.4: the measured operation derives a new key
object from the base key; its handle is kept in m_derivedkey. -/
def P11XorKeyDataDeriveBenchmark.crashtestdummy
    (b : P11Benchmark (WithSession P11XorKeyDataDeriveBenchmark)) :
    Option HookError × P11Benchmark (WithSession P11XorKeyDataDeriveBenchmark) :=
  match b.derived.session.C_DeriveKey CKM_XOR_BASE_AND_DATA b.derived.self.m_objhandle
      b.derived.self.m_template with
  | Except.error code => (some (HookError.ReturnError code), b)
  | Except.ok (h, s1) =>
    (none, { b with derived := { self := { b.derived.self with m_derivedkey := h },
                                 session := s1 } })

/-- Modelled from the spec: P11XorKeyDataDeriveBenchmark::cleanup is declared in
p11xorkeydataderive.hpp and defined in p11xorkeydataderive.cpp, which is
missing.  Section 4.4: cleanup destroys the derived object. -/
def P11XorKeyDataDeriveBenchmark.cleanup
    (b : P11Benchmark (WithSession P11XorKeyDataDeriveBenchmark)) :
    Option HookError × P11Benchmark (WithSession P11XorKeyDataDeriveBenchmark) :=
  match b.derived.session.C_DestroyObject b.derived.self.m_derivedkey with
  | Except.error code => (some (HookError.ReturnError code), b)
  | Except.ok s1 => (none, { b with derived := { b.derived with session := s1 } })

/-- Modelled from the spec: P11XorKeyDataDeriveBenchmark::prepare
(p11xorkeydataderive.cpp, missing).  Section 4.4 and the header: the handle of
the base key is obtained and the derivation is configured. -/
def P11XorKeyDataDeriveBenchmark.prepare (obj : Object) (_threadindex : Option Nat)
    (b : P11Benchmark (WithSession P11XorKeyDataDeriveBenchmark)) :
    Option HookError × P11Benchmark (WithSession P11XorKeyDataDeriveBenchmark) :=
  (none, { b with derived := { b.derived with
    self := { b.derived.self with m_objhandle := obj.handle } } })

/-- The hooks of the XOR derivation variant; the acceptance check and teardown
are those of the base class. -/
def P11XorKeyDataDeriveBenchmark.variant (obj : Object) :
    Variant (WithSession P11XorKeyDataDeriveBenchmark) where
  is_payload_supported := P11Benchmark.is_payload_supported
  prepare := P11XorKeyDataDeriveBenchmark.prepare obj
  crashtestdummy := P11XorKeyDataDeriveBenchmark.crashtestdummy
  cleanup := P11XorKeyDataDeriveBenchmark.cleanup
  teardown := fun _ b => (none, b)

/-- Modelled from the spec: P11ECDH1DeriveBenchmark::crashtestdummy is declared
in p11ecdh1derive.hpp and defined in p11ecdh1derive.cpp, which is missing.
Section 4.4: the measured operation derives a new key object from the base
key; its handle is kept in m_derivedkey. -/
def P11ECDH1DeriveBenchmark.crashtestdummy
    (b : P11Benchmark (WithSession P11ECDH1DeriveBenchmark)) :
    Option HookError × P11Benchmark (WithSession P11ECDH1DeriveBenchmark) :=
  match b.derived.session.C_DeriveKey CKM_ECDH1_DERIVE b.derived.self.m_objhandle
      b.derived.self.m_template with
  | Except.error code => (some (HookError.ReturnError code), b)
  | Except.ok (h, s1) =>
    (none, { b with derived := { self := { b.derived.self with m_derivedkey := h },
                                 session := s1 } })

/-- Modelled from the spec: P11ECDH1DeriveBenchmark::cleanup is declared in
p11ecdh1derive.hpp and defined in p11ecdh1derive.cpp, which is missing.
Section 4.4: cleanup destroys the derived object. -/
def P11ECDH1DeriveBenchmark.cleanup
    (b : P11Benchmark (WithSession P11ECDH1DeriveBenchmark)) :
    Option HookError × P11Benchmark (WithSession P11ECDH1DeriveBenchmark) :=
  match b.derived.session.C_DestroyObject b.derived.self.m_derivedkey with
  | Except.error code => (some (HookError.ReturnError code), b)
  | Except.ok s1 => (none, { b with derived := { b.derived with session := s1 } })

/-- Modelled from the spec: P11ECDH1DeriveBenchmark::prepare
(p11ecdh1derive.cpp, missing).  Section 4.4 and the header: the handle of the
base key is obtained and the derivation parameters are configured. -/
def P11ECDH1DeriveBenchmark.prepare (obj : Object) (_threadindex : Option Nat)
    (b : P11Benchmark (WithSession P11ECDH1DeriveBenchmark)) :
    Option HookError × P11Benchmark (WithSession P11ECDH1DeriveBenchmark) :=
  (none, { b with derived := { b.derived with
    self := { b.derived.self with m_objhandle := obj.handle } } })

/-- The hooks of the ECDH derivation variant; the acceptance check and
teardown are those of the base class. -/
def P11ECDH1DeriveBenchmark.variant (obj : Object) :
    Variant (WithSession P11ECDH1DeriveBenchmark) where
  is_payload_supported := P11Benchmark.is_payload_supported
  prepare := P11ECDH1DeriveBenchmark.prepare obj
  crashtestdummy := P11ECDH1DeriveBenchmark.crashtestdummy
  cleanup := P11ECDH1DeriveBenchmark.cleanup
  teardown := fun _ b => (none, b)

/-! ## More concrete inputs -/

/-- A token session that holds one AES key, at handle 0, and has room for
capacity objects in all. -/
def sessionWithKey (capacity : Nat) : Session :=
  { slots := [some ⟨ObjectClass.SecretKey, "aes-1"⟩], capacity := capacity }

/-- A freshly constructed object-search benchmark with a payload of n bytes,
on a session that holds one key. -/
def findObjectsWithPayload (n capacity : Nat) :
    P11Benchmark (WithSession P11FindObjectsBenchmark) :=
  { m_name := "Find Objects", m_label := "label", m_timer := 0, m_last_clock := 0,
    m_payload := List.replicate n 0, now := 0,
    derived :=
      { self := { m_temp_keys := [], m_random_indices := [], m_current_iteration := 0,
                  m_base_label := "", m_search_template := [] },
        session := sessionWithKey capacity } }

/-- A thread label function: the label, followed by the thread index when
there is one. -/
def threadLabel (label : String) (threadindex : Option Nat) : String :=
  match threadindex with
  | some i => label ++ "-th" ++ String.mk (to_decimal i)
  | none => label

/-- An XOR derivation benchmark whose base key is the key at handle 0. -/
def xorDerive (capacity : Nat) : P11Benchmark (WithSession P11XorKeyDataDeriveBenchmark) :=
  { m_name := "XOR derive", m_label := "aes-1", m_timer := 0, m_last_clock := 0,
    m_payload := [], now := 0,
    derived :=
      { self := { m_objhandle := 0, m_derivedkey := 0,
                  m_template := ⟨ObjectClass.SecretKey, "derived"⟩ },
        session := sessionWithKey capacity } }

/-- An ECDH derivation benchmark whose base key is the key at handle 0. -/
def ecdhDerive (capacity : Nat) : P11Benchmark (WithSession P11ECDH1DeriveBenchmark) :=
  { m_name := "ECDH derive", m_label := "ec-1", m_timer := 0, m_last_clock := 0,
    m_payload := [], now := 0,
    derived :=
      { self := { m_ecdh1_derive_params := [4, 1, 2], m_objhandle := 0, m_derivedkey := 0,
                  m_template := ⟨ObjectClass.SecretKey, "derived"⟩ },
        session := sessionWithKey capacity } }


/-- How the update of the search template for the target index idx relates an
attribute before (first) and after (second): a class attribute is unchanged; a
label keeps its length and everything before its last 6 characters, and its
last 6 characters are the 6 digits of idx. -/
def SuffixUpdated (idx : Nat) : Attribute → Attribute → Prop
  | Attribute.Class c, a => a = Attribute.Class c
  | Attribute.Label l, a =>
    ∃ l2, a = Attribute.Label l2 ∧ l2.length = l.length ∧
      l2.data.take (l.length - 6) = l.data.take (l.length - 6) ∧
      l2.data.drop (l.length - 6) = fixed_digits 6 idx


/-! ## The exception classes and their messages (p11benchmark.hpp, 44-112) -/

/-- The exception class NotFound: it holds the message built by its
constructor. -/
structure NotFound where
  m_whatmsg : String
  deriving DecidableEq, Repr

/-- The constructor of NotFound from a std::string (p11benchmark.hpp, 51-53);
the character written \x27 is the single quote. -/
def NotFound.from_string (label : String) : NotFound :=
  { m_whatmsg := "Object with label \x27" ++ label ++ "\x27 not found" }

/-- The constructor of NotFound from a C string (p11benchmark.hpp, 56-58): the
label goes through std::string(label), here the string the pointer denotes. -/
def NotFound.from_c_string (label : String) : NotFound :=
  { m_whatmsg := "Object with label \x27" ++ label ++ "\x27 not found" }

/-- The member what() of NotFound: the message. -/
def NotFound.what (e : NotFound) : String :=
  e.m_whatmsg

/-- The exception class AmbiguousResult: it holds the message built by its
constructor. -/
structure AmbiguousResult where
  m_whatmsg : String
  deriving DecidableEq, Repr

/-- The constructor of AmbiguousResult from a std::string (p11benchmark.hpp,
76-78). -/
def AmbiguousResult.from_string (label : String) : AmbiguousResult :=
  { m_whatmsg := "Multiple objects with label \x27" ++ label ++ "\x27 found" }

/-- The constructor of AmbiguousResult from a C string (p11benchmark.hpp,
81-83). -/
def AmbiguousResult.from_c_string (label : String) : AmbiguousResult :=
  { m_whatmsg := "Multiple objects with label \x27" ++ label ++ "\x27 found" }

/-- The member what() of AmbiguousResult: the message. -/
def AmbiguousResult.what (e : AmbiguousResult) : String :=
  e.m_whatmsg

/-- The exception class PayloadSizeNotSupported: it holds the size and the
message built by its constructor. -/
structure PayloadSizeNotSupported where
  m_size : Nat
  m_whatmsg : String
  deriving DecidableEq, Repr

/-- The function std::to_string on a size: the number written in decimal. -/
def to_string (n : Nat) : String :=
  String.mk (to_decimal n)

/-- The constructor of PayloadSizeNotSupported (p11benchmark.hpp, 101-103). -/
def PayloadSizeNotSupported.from_size (size : Nat) : PayloadSizeNotSupported :=
  { m_size := size,
    m_whatmsg := "Payload with size " ++ to_string size ++
      " is not supported for this benchmark" }

/-- The member what() of PayloadSizeNotSupported: the message. -/
def PayloadSizeNotSupported.what (e : PayloadSizeNotSupported) : String :=
  e.m_whatmsg

/-! ## Construction, naming and the default hooks of P11Benchmark -/

/-- Modelled from the spec: the constructor of P11Benchmark is declared in
p11benchmark.hpp (166-170) and defined in p11benchmark.cpp, which is missing.
Section 3: a variant is constructed from its display name, its label, the
class of token object it expects and the vendor hint.  The timer members take
the initial values of the class definition (m_timer {0}, m_last_clock {});
the object class and the vendor are read by no property here and are not
kept.  The clock reading and the members of the derived class are given. -/
def P11Benchmark.construct {τ V : Type} (name label : String) (_objectclass : ObjectClass)
    (_vendor : V) (now : Nat) (derived : τ) : P11Benchmark τ :=
  { m_name := name, m_label := label, m_timer := 0, m_last_clock := 0, m_payload := [],
    now := now, derived := derived }

/-- The inline member rename (p11benchmark.hpp, 151): m_name = newname. -/
def P11Benchmark.rename {τ : Type} (newname : String) (b : P11Benchmark τ) : P11Benchmark τ :=
  { b with m_name := newname }

/-- The inline member name() (p11benchmark.hpp, 180): it returns m_name. -/
def P11Benchmark.name {τ : Type} (b : P11Benchmark τ) : String :=
  b.m_name

/-- The inline member label() (p11benchmark.hpp, 181): it returns m_label. -/
def P11Benchmark.label {τ : Type} (b : P11Benchmark τ) : String :=
  b.m_label

/-- The default of the virtual member cleanup (p11benchmark.hpp, 145): its body
is empty; it returns normally and leaves the state as it is. -/
def P11Benchmark.cleanup {τ : Type} (b : P11Benchmark τ) : Option HookError × P11Benchmark τ :=
  (none, b)

/-- The default of the virtual member teardown (p11benchmark.hpp, 148): its
body is empty; it returns normally and leaves the state as it is. -/
def P11Benchmark.teardown {τ : Type} (_threadindex : Option Nat) (b : P11Benchmark τ) :
    Option HookError × P11Benchmark τ :=
  (none, b)

/-! ## Construction and copy of the OAEP encryption variant -/

/-- The constructor of P11OAEPEncryptBenchmark (p11oaepenc.cpp, 32-54): the base
class is constructed with the name RSA PKCS#1 OAEP encryption, the label, the
class PublicKey and the vendor; m_hashalg is set; then the object is renamed
after the hash algorithm. -/
def P11OAEPEncryptBenchmark.construct {V : Type} (label : String) (vendor : V)
    (hashalg : HashAlg) (now : Nat) : P11Benchmark P11OAEPEncryptBenchmark :=
  let base : P11Benchmark P11OAEPEncryptBenchmark :=
    P11Benchmark.construct "RSA PKCS#1 OAEP encryption" label ObjectClass.PublicKey vendor now
      { m_hashalg := hashalg }
  let newname := "RSA PKCS#1 OAEP encryption (" ++
    match hashalg with
    | HashAlg.SHA1 => "SHA1)"
    | HashAlg.SHA256 => "SHA256)"
  base.rename newname

/-- The copy constructor of P11OAEPEncryptBenchmark (p11oaepenc.cpp, 57-58), on
the members of the derived class: only m_hashalg is copied; the other members
take the initial values of the class definition, so m_modulus_size_bytes is 0
and the OAEP parameters are those of SHA1.  The handle, which the source
leaves without initial value, is 0 here. -/
def P11OAEPEncryptBenchmark.copy (other : P11OAEPEncryptBenchmark) : P11OAEPEncryptBenchmark :=
  { m_hashalg := other.m_hashalg }

/-- The member clone (p11oaepenc.cpp, 61-63): a new object, copy of this one. -/
def P11OAEPEncryptBenchmark.clone (self : P11OAEPEncryptBenchmark) : P11OAEPEncryptBenchmark :=
  P11OAEPEncryptBenchmark.copy self

/-- The digest length in bytes of a PKCS 11 digest mechanism: 20 for CKM_SHA_1,
32 for CKM_SHA256. -/
def mechanism_digest_length (mechanism : Nat) : Option Nat :=
  if mechanism = CKM_SHA_1 then some 20
  else if mechanism = CKM_SHA256 then some 32
  else none

/-- The hash family of a PKCS 11 mask generation function: the digest mechanism
that MGF1 runs on. -/
def mgf_digest (mgf : Nat) : Option Nat :=
  if mgf = CKG_MGF1_SHA1 then some CKM_SHA_1
  else if mgf = CKG_MGF1_SHA256 then some CKM_SHA256
  else none

end P11

/-! ## Lemmas on traces -/

namespace P11

theorem firstFailure_append (l1 l2 : List Event) :
    firstFailure (l1 ++ l2) =
      match firstFailure l1 with
      | some x => some x
      | none => firstFailure l2 := by
  induction l1 with
  | nil => simp [firstFailure]
  | cons a l ih =>
    cases a with
    | call h err =>
      cases err with
      | none => simpa [firstFailure] using ih
      | some e => simp [firstFailure]
    | sample t => simpa [firstFailure] using ih

theorem afterFailure_append (l1 l2 : List Event) :
    afterFailure (l1 ++ l2) =
      match firstFailure l1 with
      | some _ => afterFailure l1 ++ l2
      | none => afterFailure l2 := by
  induction l1 with
  | nil => simp [firstFailure, afterFailure]
  | cons a l ih =>
    cases a with
    | call h err =>
      cases err with
      | none => simpa [firstFailure, afterFailure] using ih
      | some e => simp [firstFailure, afterFailure]
    | sample t => simpa [firstFailure, afterFailure] using ih

theorem beforeFailure_append (l1 l2 : List Event) :
    beforeFailure (l1 ++ l2) =
      match firstFailure l1 with
      | some _ => beforeFailure l1
      | none => l1 ++ beforeFailure l2 := by
  induction l1 with
  | nil => simp [firstFailure, beforeFailure]
  | cons a l ih =>
    cases a with
    | call h err =>
      cases err with
      | none =>
        cases hf : firstFailure l <;> rw [hf] at ih <;>
          simp [firstFailure, beforeFailure, hf, ih]
      | some e => simp [firstFailure, beforeFailure]
    | sample t =>
      cases hf : firstFailure l <;> rw [hf] at ih <;>
        simp [firstFailure, beforeFailure, hf, ih]

theorem samples_append (l1 l2 : List Event) :
    samples (l1 ++ l2) = samples l1 ++ samples l2 := by
  induction l1 with
  | nil => simp [samples]
  | cons a l ih => cases a <;> simp [samples, ih]

theorem invocations_append (h : Hook) (l1 l2 : List Event) :
    invocations h (l1 ++ l2) = invocations h l1 + invocations h l2 := by
  simp [invocations, List.countP_append]

theorem invocations_cons (h : Hook) (a : Event) (l : List Event) :
    invocations h (a :: l) = invocations h l + (if a.isCall h then 1 else 0) := by
  simp [invocations, List.countP_cons]

theorem invocations_nil (h : Hook) : invocations h [] = 0 := by
  simp [invocations]

theorem iterate_induction {τ : Type} (v : Variant τ) (measured : Bool)
    {motive : Nat → P11Benchmark τ → Progress τ → Prop}
    (zero : ∀ b, motive 0 b ⟨b, [], [], none⟩)
    (ctd_fail : ∀ k b e b1, v.crashtestdummy b = (some e, b1) →
      motive (k + 1) b ⟨b1, [], [Event.call Hook.crashtestdummy (some e)], some e⟩)
    (cleanup_fail : ∀ k b b1 e b2, v.crashtestdummy b = (none, b1) →
      v.cleanup b1 = (some e, b2) →
      motive (k + 1) b ⟨b2, if measured then [b1.elapsed] else [],
        Event.call Hook.crashtestdummy none ::
          ((if measured then [Event.sample b1.elapsed] else []) ++
            [Event.call Hook.cleanup (some e)]), some e⟩)
    (ok : ∀ k b b1 b2, v.crashtestdummy b = (none, b1) → v.cleanup b1 = (none, b2) →
      motive k b2 (iterate v measured k b2) →
      motive (k + 1) b ⟨(iterate v measured k b2).state,
        (if measured then [b1.elapsed] else []) ++ (iterate v measured k b2).records,
        Event.call Hook.crashtestdummy none ::
          ((if measured then [Event.sample b1.elapsed] else []) ++
            Event.call Hook.cleanup none :: (iterate v measured k b2).trace),
        (iterate v measured k b2).error⟩) :
    ∀ k b, motive k b (iterate v measured k b) := by
  intro k
  induction k with
  | zero => intro b; exact zero b
  | succ k ih =>
    intro b
    rcases h1 : v.crashtestdummy b with ⟨_ | e, b1⟩
    · rcases h2 : v.cleanup b1 with ⟨_ | e, b2⟩
      · have := ok k b b1 b2 h1 h2 (ih b2)
        simpa [iterate, h1, h2] using this
      · have := cleanup_fail k b b1 e b2 h1 h2
        simpa [iterate, h1, h2] using this
    · have := ctd_fail k b e b1 h1
      simpa [iterate, h1] using this

theorem iterate_firstFailure_error {τ : Type} (v : Variant τ) (measured : Bool) (k : Nat)
    (b : P11Benchmark τ) :
    (firstFailure (iterate v measured k b).trace).map Prod.snd =
      (iterate v measured k b).error := by
  refine iterate_induction v measured
    (motive := fun _ _ r => (firstFailure r.trace).map Prod.snd = r.error) ?_ ?_ ?_ ?_ k b
  · intro b; simp [firstFailure]
  · intro k b e b1 _; simp [firstFailure]
  · intro k b b1 e b2 _ _; cases measured <;> simp [firstFailure]
  · intro k b b1 b2 _ _ ih; cases measured <;> simpa [firstFailure] using ih

theorem iterate_firstFailure_hook {τ : Type} (v : Variant τ) (measured : Bool) (k : Nat)
    (b : P11Benchmark τ) :
    ∀ h e, firstFailure (iterate v measured k b).trace = some (h, e) →
      h = Hook.crashtestdummy ∨ h = Hook.cleanup := by
  refine iterate_induction v measured
    (motive := fun _ _ r => ∀ h e, firstFailure r.trace = some (h, e) →
      h = Hook.crashtestdummy ∨ h = Hook.cleanup) ?_ ?_ ?_ ?_ k b
  · intro b h e; simp [firstFailure]
  · intro k b e b1 _ h e1; simp [firstFailure]; intro h1 _; exact Or.inl h1.symm
  · intro k b b1 e b2 _ _ h e1
    cases measured <;> simp [firstFailure] <;> intro h1 _ <;> exact Or.inr h1.symm
  · intro k b b1 b2 _ _ ih h e
    cases measured <;> simpa [firstFailure] using ih h e

theorem iterate_afterFailure {τ : Type} (v : Variant τ) (measured : Bool) (k : Nat)
    (b : P11Benchmark τ) : afterFailure (iterate v measured k b).trace = [] := by
  refine iterate_induction v measured
    (motive := fun _ _ r => afterFailure r.trace = []) ?_ ?_ ?_ ?_ k b
  · intro b; simp [afterFailure]
  · intro k b e b1 _; simp [afterFailure]
  · intro k b b1 e b2 _ _; cases measured <;> simp [afterFailure]
  · intro k b b1 b2 _ _ ih; cases measured <;> simpa [afterFailure] using ih

theorem iterate_samples {τ : Type} (v : Variant τ) (measured : Bool) (k : Nat)
    (b : P11Benchmark τ) :
    samples (iterate v measured k b).trace = (iterate v measured k b).records := by
  refine iterate_induction v measured
    (motive := fun _ _ r => samples r.trace = r.records) ?_ ?_ ?_ ?_ k b
  · intro b; simp [samples]
  · intro k b e b1 _; simp [samples]
  · intro k b b1 e b2 _ _; cases measured <;> simp [samples]
  · intro k b b1 b2 _ _ ih; cases measured <;> simpa [samples] using ih

theorem iterate_samples_before {τ : Type} (v : Variant τ) (measured : Bool) (k : Nat)
    (b : P11Benchmark τ) :
    samples (beforeFailure (iterate v measured k b).trace) =
      (iterate v measured k b).records := by
  refine iterate_induction v measured
    (motive := fun _ _ r => samples (beforeFailure r.trace) = r.records) ?_ ?_ ?_ ?_ k b
  · intro b; simp [samples, beforeFailure]
  · intro k b e b1 _; simp [samples, beforeFailure]
  · intro k b b1 e b2 _ _; cases measured <;> simp [samples, beforeFailure]
  · intro k b b1 b2 _ _ ih; cases measured <;> simpa [samples, beforeFailure] using ih

theorem iterate_warmup_records {τ : Type} (v : Variant τ) (k : Nat) (b : P11Benchmark τ) :
    (iterate v false k b).records = [] := by
  refine iterate_induction v false (motive := fun _ _ r => r.records = []) ?_ ?_ ?_ ?_ k b
  · intro b; rfl
  · intro k b e b1 _; rfl
  · intro k b b1 e b2 _ _; simp
  · intro k b b1 b2 _ _ ih; simpa using ih

theorem iterate_length_le {τ : Type} (v : Variant τ) (measured : Bool) (k : Nat)
    (b : P11Benchmark τ) : (iterate v measured k b).records.length ≤ k := by
  refine iterate_induction v measured
    (motive := fun k _ r => r.records.length ≤ k) ?_ ?_ ?_ ?_ k b
  · intro b; simp
  · intro k b e b1 _; simp
  · intro k b b1 e b2 _ _; cases measured <;> simp
  · intro k b b1 b2 _ _ ih; cases measured <;> simp <;> omega

theorem iterate_measured_ok_length {τ : Type} (v : Variant τ) (k : Nat)
    (b : P11Benchmark τ) :
    (iterate v true k b).error = none → (iterate v true k b).records.length = k := by
  refine iterate_induction v true
    (motive := fun k _ r => r.error = none → r.records.length = k) ?_ ?_ ?_ ?_ k b
  · intro b; simp
  · intro k b e b1 _; simp
  · intro k b b1 e b2 _ _; simp
  · intro k b b1 b2 _ _ ih h; simp at h ⊢; have := ih h; omega

theorem iterate_ctd_fail_length {τ : Type} (v : Variant τ) (k : Nat)
    (b : P11Benchmark τ) :
    ∀ e, firstFailure (iterate v true k b).trace = some (Hook.crashtestdummy, e) →
      (iterate v true k b).records.length < k := by
  refine iterate_induction v true
    (motive := fun k _ r => ∀ e, firstFailure r.trace = some (Hook.crashtestdummy, e) →
      r.records.length < k) ?_ ?_ ?_ ?_ k b
  · intro b e; simp [firstFailure]
  · intro k b e b1 _ e1; simp
  · intro k b b1 e b2 _ _ e1; simp [firstFailure]
  · intro k b b1 b2 _ _ ih e h
    simp [firstFailure] at h ⊢
    have := ih e h
    omega

theorem iterate_ok_hookCalls {τ : Type} (v : Variant τ) (measured : Bool) (k : Nat)
    (b : P11Benchmark τ) :
    (iterate v measured k b).error = none →
      hookCalls (iterate v measured k b).trace =
        (List.replicate k [Hook.crashtestdummy, Hook.cleanup]).flatten := by
  refine iterate_induction v measured
    (motive := fun k _ r => r.error = none →
      hookCalls r.trace = (List.replicate k [Hook.crashtestdummy, Hook.cleanup]).flatten)
    ?_ ?_ ?_ ?_ k b
  · intro b; simp [hookCalls]
  · intro k b e b1 _; simp
  · intro k b b1 e b2 _ _; simp
  · intro k b b1 b2 _ _ ih h
    have := ih h
    cases measured <;> simp [hookCalls, List.replicate_succ, this]

theorem iterate_warmup_ok_trace {τ : Type} (v : Variant τ) (k : Nat)
    (b : P11Benchmark τ) :
    (iterate v false k b).error = none →
      (iterate v false k b).trace = (List.replicate k warmupRound).flatten := by
  refine iterate_induction v false
    (motive := fun k _ r => r.error = none →
      r.trace = (List.replicate k warmupRound).flatten) ?_ ?_ ?_ ?_ k b
  · intro b; simp
  · intro k b e b1 _; simp
  · intro k b b1 e b2 _ _; simp
  · intro k b b1 b2 _ _ ih h
    have := ih h
    simp [List.replicate_succ, warmupRound, this]

theorem iterate_ok_invocations {τ : Type} (v : Variant τ) (measured : Bool) (k : Nat)
    (b : P11Benchmark τ) :
    (iterate v measured k b).error = none →
      invocations Hook.crashtestdummy (iterate v measured k b).trace = k ∧
      invocations Hook.cleanup (iterate v measured k b).trace = k := by
  refine iterate_induction v measured
    (motive := fun k _ r => r.error = none →
      invocations Hook.crashtestdummy r.trace = k ∧ invocations Hook.cleanup r.trace = k)
    ?_ ?_ ?_ ?_ k b
  · intro b; simp [invocations]
  · intro k b e b1 _; simp
  · intro k b b1 e b2 _ _; simp
  · intro k b b1 b2 _ _ ih h
    obtain ⟨h1, h2⟩ := ih h
    cases measured <;>
      simp [invocations_cons, invocations_append, Event.isCall, h1, h2]

theorem iterate_hooks {τ : Type} (v : Variant τ) (measured : Bool) (k : Nat)
    (b : P11Benchmark τ) :
    ∀ ev ∈ (iterate v measured k b).trace,
      ev.isCall Hook.prepare = false ∧ ev.isCall Hook.teardown = false := by
  refine iterate_induction v measured
    (motive := fun _ _ r => ∀ ev ∈ r.trace,
      ev.isCall Hook.prepare = false ∧ ev.isCall Hook.teardown = false) ?_ ?_ ?_ ?_ k b
  · intro b; simp
  · intro k b e b1 _; simp [Event.isCall]
  · intro k b b1 e b2 _ _; cases measured <;> simp [Event.isCall]
  · intro k b b1 b2 _ _ ih; cases measured <;> simpa [Event.isCall] using ih

/-! ## Lemmas on the lifecycle -/

theorem iterate_ok_firstFailure {τ : Type} (v : Variant τ) (measured : Bool) (k : Nat)
    (b : P11Benchmark τ) (h : (iterate v measured k b).error = none) :
    firstFailure (iterate v measured k b).trace = none := by
  have := iterate_firstFailure_error v measured k b
  rw [h] at this
  simpa using this

theorem lifecycle_cases {τ : Type} (v : Variant τ) (b : P11Benchmark τ)
    (n s : Nat) (ti : Option Nat) :
    (∃ e b1, v.prepare ti b = (some e, b1) ∧
      lifecycle v b n s ti = ⟨b1, [], [Event.call Hook.prepare (some e)], some e⟩) ∨
    (∃ e b1, v.prepare ti b = (none, b1) ∧ (iterate v false s b1).error = some e ∧
      lifecycle v b n s ti =
        ⟨(iterate v false s b1).state, [],
          Event.call Hook.prepare none :: (iterate v false s b1).trace, some e⟩) ∨
    (∃ b1, v.prepare ti b = (none, b1) ∧ (iterate v false s b1).error = none ∧
      lifecycle v b n s ti =
        ⟨(iterate v true n (iterate v false s b1).state.reset_timer).state,
          (iterate v true n (iterate v false s b1).state.reset_timer).records,
          Event.call Hook.prepare none ::
            ((iterate v false s b1).trace ++
              (iterate v true n (iterate v false s b1).state.reset_timer).trace),
          (iterate v true n (iterate v false s b1).state.reset_timer).error⟩) := by
  rcases h1 : v.prepare ti b with ⟨_ | e, b1⟩
  · rcases h2 : (iterate v false s b1).error with _ | e
    · exact Or.inr (Or.inr ⟨b1, rfl, h2, by simp [lifecycle, h1, h2]⟩)
    · exact Or.inr (Or.inl ⟨e, b1, rfl, h2, by simp [lifecycle, h1, h2]⟩)
  · exact Or.inl ⟨e, b1, rfl, by simp [lifecycle, h1]⟩

theorem lifecycle_firstFailure_error {τ : Type} (v : Variant τ) (b : P11Benchmark τ)
    (n s : Nat) (ti : Option Nat) :
    (firstFailure (lifecycle v b n s ti).trace).map Prod.snd =
      (lifecycle v b n s ti).error := by
  rcases lifecycle_cases v b n s ti with
    ⟨e, b1, _, h⟩ | ⟨e, b1, _, hw, h⟩ | ⟨b1, _, hw, h⟩
  · rw [h]; simp [firstFailure]
  · rw [h]
    have := iterate_firstFailure_error v false s b1
    rw [hw] at this
    simpa [firstFailure] using this
  · rw [h]
    have h1 := iterate_ok_firstFailure v false s b1 hw
    have h2 := iterate_firstFailure_error v true n (iterate v false s b1).state.reset_timer
    simpa [firstFailure, firstFailure_append, h1] using h2

theorem lifecycle_afterFailure {τ : Type} (v : Variant τ) (b : P11Benchmark τ)
    (n s : Nat) (ti : Option Nat) : afterFailure (lifecycle v b n s ti).trace = [] := by
  rcases lifecycle_cases v b n s ti with
    ⟨e, b1, _, h⟩ | ⟨e, b1, _, hw, h⟩ | ⟨b1, _, hw, h⟩
  · rw [h]; simp [afterFailure]
  · rw [h]; simpa [afterFailure] using iterate_afterFailure v false s b1
  · rw [h]
    have h1 := iterate_ok_firstFailure v false s b1 hw
    simpa [afterFailure, afterFailure_append, h1] using
      iterate_afterFailure v true n (iterate v false s b1).state.reset_timer

theorem lifecycle_samples {τ : Type} (v : Variant τ) (b : P11Benchmark τ)
    (n s : Nat) (ti : Option Nat) :
    samples (lifecycle v b n s ti).trace = (lifecycle v b n s ti).records ∧
    samples (beforeFailure (lifecycle v b n s ti).trace) =
      (lifecycle v b n s ti).records := by
  rcases lifecycle_cases v b n s ti with
    ⟨e, b1, _, h⟩ | ⟨e, b1, _, hw, h⟩ | ⟨b1, _, hw, h⟩
  · rw [h]; simp [samples, beforeFailure]
  · rw [h]
    have h1 := iterate_samples v false s b1
    have h2 := iterate_samples_before v false s b1
    rw [iterate_warmup_records] at h1 h2
    simp [samples, beforeFailure, h1, h2]
  · rw [h]
    have h0 := iterate_ok_firstFailure v false s b1 hw
    have h1 := iterate_samples v false s b1
    rw [iterate_warmup_records] at h1
    have h3 := iterate_samples v true n (iterate v false s b1).state.reset_timer
    have h4 := iterate_samples_before v true n (iterate v false s b1).state.reset_timer
    simp [samples, beforeFailure, beforeFailure_append, samples_append, h0, h1, h3, h4]

theorem lifecycle_length_le {τ : Type} (v : Variant τ) (b : P11Benchmark τ)
    (n s : Nat) (ti : Option Nat) : (lifecycle v b n s ti).records.length ≤ n := by
  rcases lifecycle_cases v b n s ti with
    ⟨e, b1, _, h⟩ | ⟨e, b1, _, hw, h⟩ | ⟨b1, _, hw, h⟩
  · rw [h]; simp
  · rw [h]; simp
  · rw [h]; exact iterate_length_le v true n _

theorem lifecycle_ok_length {τ : Type} (v : Variant τ) (b : P11Benchmark τ)
    (n s : Nat) (ti : Option Nat) (hok : (lifecycle v b n s ti).error = none) :
    (lifecycle v b n s ti).records.length = n := by
  rcases lifecycle_cases v b n s ti with
    ⟨e, b1, _, h⟩ | ⟨e, b1, _, hw, h⟩ | ⟨b1, _, hw, h⟩
  · rw [h] at hok; simp at hok
  · rw [h] at hok; simp at hok
  · rw [h] at hok ⊢; exact iterate_measured_ok_length v n _ hok

theorem lifecycle_failure_hook {τ : Type} (v : Variant τ) (b : P11Benchmark τ)
    (n s : Nat) (ti : Option Nat) (h : Hook) (e : HookError)
    (hf : firstFailure (lifecycle v b n s ti).trace = some (h, e)) :
    h ≠ Hook.teardown ∧
      ((h = Hook.prepare ∨ h = Hook.crashtestdummy) → 0 < n →
        (lifecycle v b n s ti).records.length < n) := by
  rcases lifecycle_cases v b n s ti with
    ⟨e1, b1, _, hl⟩ | ⟨e1, b1, _, hw, hl⟩ | ⟨b1, _, hw, hl⟩
  · rw [hl] at hf ⊢
    simp [firstFailure] at hf
    refine ⟨by rw [← hf.1]; decide, fun _ hn => by simpa using hn⟩
  · rw [hl] at hf ⊢
    simp only [firstFailure] at hf
    refine ⟨?_, fun _ hn => by simpa using hn⟩
    rcases iterate_firstFailure_hook v false s b1 h e hf with h1 | h1 <;> rw [h1] <;> decide
  · rw [hl] at hf ⊢
    have h0 := iterate_ok_firstFailure v false s b1 hw
    simp only [firstFailure, firstFailure_append, h0] at hf
    have hk := iterate_firstFailure_hook v true n _ h e hf
    refine ⟨by rcases hk with h1 | h1 <;> rw [h1] <;> decide, ?_⟩
    intro hh _
    rcases hk with h1 | h1
    · subst h1
      exact iterate_ctd_fail_length v n _ e hf
    · subst h1
      rcases hh with hh | hh <;> cases hh

theorem lifecycle_ok_trace {τ : Type} (v : Variant τ) (b : P11Benchmark τ)
    (n s : Nat) (ti : Option Nat) (hok : (lifecycle v b n s ti).error = none) :
    ∃ M, (lifecycle v b n s ti).trace =
        Event.call Hook.prepare none :: ((List.replicate s warmupRound).flatten ++ M) ∧
      samples M = (lifecycle v b n s ti).records ∧
      invocations Hook.crashtestdummy M = n ∧
      invocations Hook.cleanup M = n ∧
      hookCalls M = (List.replicate n [Hook.crashtestdummy, Hook.cleanup]).flatten := by
  rcases lifecycle_cases v b n s ti with
    ⟨e, b1, _, h⟩ | ⟨e, b1, _, hw, h⟩ | ⟨b1, _, hw, h⟩
  · rw [h] at hok; simp at hok
  · rw [h] at hok; simp at hok
  · rw [h] at hok ⊢
    simp only at hok
    refine ⟨(iterate v true n (iterate v false s b1).state.reset_timer).trace, ?_, ?_, ?_, ?_, ?_⟩
    · simp [iterate_warmup_ok_trace v s b1 hw]
    · exact iterate_samples v true n _
    · exact (iterate_ok_invocations v true n _ hok).1
    · exact (iterate_ok_invocations v true n _ hok).2
    · exact iterate_ok_hookCalls v true n _ hok

theorem lifecycle_shape {τ : Type} (v : Variant τ) (b : P11Benchmark τ)
    (n s : Nat) (ti : Option Nat) :
    ∃ e0 mid, (lifecycle v b n s ti).trace = Event.call Hook.prepare e0 :: mid ∧
      ∀ ev ∈ mid, ev.isCall Hook.prepare = false ∧ ev.isCall Hook.teardown = false := by
  rcases lifecycle_cases v b n s ti with
    ⟨e, b1, _, h⟩ | ⟨e, b1, _, hw, h⟩ | ⟨b1, _, hw, h⟩
  · exact ⟨some e, [], by rw [h], by simp⟩
  · exact ⟨none, (iterate v false s b1).trace, by rw [h], iterate_hooks v false s b1⟩
  · refine ⟨none, _, by rw [h], ?_⟩
    intro ev hev
    rcases List.mem_append.mp hev with h1 | h1
    · exact iterate_hooks v false s b1 ev h1
    · exact iterate_hooks v true n _ ev h1

theorem iterate_ctd_count_le {τ : Type} (v : Variant τ) (measured : Bool) (k : Nat)
    (b : P11Benchmark τ) :
    invocations Hook.crashtestdummy (iterate v measured k b).trace ≤ k := by
  refine iterate_induction v measured
    (motive := fun k _ r => invocations Hook.crashtestdummy r.trace ≤ k) ?_ ?_ ?_ ?_ k b
  · intro b; simp [invocations]
  · intro k b e b1 _; simp [invocations_cons, invocations_nil, Event.isCall]
  · intro k b b1 e b2 _ _
    cases measured <;>
      simp [invocations_cons, invocations_append, invocations_nil, Event.isCall]
  · intro k b b1 b2 _ _ ih
    cases measured <;>
      simp [invocations_cons, invocations_append, invocations_nil, Event.isCall] <;> omega

theorem iterate_failure_pos {τ : Type} (v : Variant τ) (measured : Bool) (k : Nat)
    (b : P11Benchmark τ) :
    ∀ x, firstFailure (iterate v measured k b).trace = some x → 0 < k := by
  intro x hx
  cases k with
  | zero => simp [iterate, firstFailure] at hx
  | succ k => exact Nat.succ_pos k

theorem iterate_cleanup_fail_length {τ : Type} (v : Variant τ) (k : Nat)
    (b : P11Benchmark τ) :
    ∀ e, firstFailure (iterate v true k b).trace = some (Hook.cleanup, e) →
      (iterate v true k b).records.length =
        invocations Hook.crashtestdummy (iterate v true k b).trace := by
  refine iterate_induction v true
    (motive := fun _ _ r => ∀ e, firstFailure r.trace = some (Hook.cleanup, e) →
      r.records.length = invocations Hook.crashtestdummy r.trace) ?_ ?_ ?_ ?_ k b
  · intro b e; simp [firstFailure]
  · intro k b e b1 _ e1; simp [firstFailure]
  · intro k b b1 e b2 _ _ e1 _
    simp [invocations_cons, invocations_append, invocations_nil, Event.isCall]
  · intro k b b1 b2 _ _ ih e h
    simp only [if_true, firstFailure, List.cons_append, List.nil_append] at h
    have := ih e h
    simp [invocations_cons, invocations_append, invocations_nil, Event.isCall, this]

theorem lifecycle_failure_length {τ : Type} (v : Variant τ) (b : P11Benchmark τ)
    (n s : Nat) (ti : Option Nat) (h : Hook) (e : HookError)
    (hf : firstFailure (lifecycle v b n s ti).trace = some (h, e)) :
    ((lifecycle v b n s ti).records.length < n ↔
      (0 < n ∧ ¬ (h = Hook.cleanup ∧
        invocations Hook.crashtestdummy (lifecycle v b n s ti).trace = n + s))) := by
  rcases lifecycle_cases v b n s ti with
    ⟨e1, b1, _, hl⟩ | ⟨e1, b1, _, hw, hl⟩ | ⟨b1, _, hw, hl⟩
  · rw [hl] at hf ⊢
    simp only [firstFailure, Option.some.injEq, Prod.mk.injEq] at hf
    have hh : h ≠ Hook.cleanup := by rw [← hf.1]; decide
    simp [hh]
  · rw [hl] at hf ⊢
    simp only [firstFailure] at hf
    have hc := iterate_ctd_count_le v false s b1
    simp only [List.length_nil, invocations_cons, Event.isCall]
    constructor
    · intro hn
      refine ⟨hn, ?_⟩
      rintro ⟨_, hcount⟩
      simp at hcount
      omega
    · intro hn; exact hn.1
  · rw [hl] at hf ⊢
    have h0 := iterate_ok_firstFailure v false s b1 hw
    have hcw := (iterate_ok_invocations v false s b1 hw).1
    simp only [firstFailure, firstFailure_append, h0] at hf
    have hk := iterate_firstFailure_hook v true n _ h e hf
    have hpos := iterate_failure_pos v true n _ _ hf
    have hcm := iterate_ctd_count_le v true n (iterate v false s b1).state.reset_timer
    have hle := iterate_length_le v true n (iterate v false s b1).state.reset_timer
    simp only [invocations_cons, invocations_append, Event.isCall, hcw]
    rcases hk with h1 | h1
    · subst h1
      have := iterate_ctd_fail_length v n _ e hf
      simp [this, hpos]
    · subst h1
      have := iterate_cleanup_fail_length v n _ e hf
      simp only [true_and]
      constructor
      · intro hlt
        refine ⟨hpos, ?_⟩
        intro hcount
        simp at hcount
        omega
      · rintro ⟨_, hcount⟩
        simp at hcount
        omega

/-! ## Lemmas on execute -/

theorem execute_rejected {τ : Type} (v : Variant τ) (b : P11Benchmark τ) (payload : List Nat)
    (n s : Nat) (ti : Option Nat) (h : v.is_payload_supported b payload.length = false) :
    execute v b payload n s ti =
      ⟨[], operation_outcome_t.PayloadSizeNotSupported payload.length, [], b⟩ := by
  simp [execute, h]

theorem execute_accepted {τ : Type} (v : Variant τ) (b : P11Benchmark τ) (payload : List Nat)
    (n s : Nat) (ti : Option Nat) (h : v.is_payload_supported b payload.length = true) :
    ∃ terr,
      (execute v b payload n s ti).trace =
        (lifecycle v { b with m_payload := payload } n s ti).trace ++
          [Event.call Hook.teardown terr] ∧
      (execute v b payload n s ti).records =
        (lifecycle v { b with m_payload := payload } n s ti).records ∧
      (execute v b payload n s ti).outcome =
        final_outcome (lifecycle v { b with m_payload := payload } n s ti).error terr := by
  rcases ht : v.teardown ti (lifecycle v { b with m_payload := payload } n s ti).state with
    ⟨terr, b1⟩
  exact ⟨terr, by simp [execute, h, ht], by simp [execute, h, ht], by simp [execute, h, ht]⟩

theorem final_outcome_eq_Ok {err terr : Option HookError}
    (h : final_outcome err terr = operation_outcome_t.Ok) : err = none ∧ terr = none := by
  cases err with
  | some e => cases e <;> simp [final_outcome, classify] at h
  | none =>
    cases terr with
    | some e => cases e <;> simp [final_outcome, classify] at h
    | none => exact ⟨rfl, rfl⟩

/-! ## Lemmas on the OAEP encryption variant -/

theorem oaep_prepare_resolved (self : P11OAEPEncryptBenchmark) (obj : Object)
    (modulus : List Nat)
    (hm : obj.get_attribute_value AttributeType.Modulus = Except.ok modulus) :
    (self.prepare obj).1 = none ∧
      (self.prepare obj).2.m_modulus_size_bytes = modulus.length ∧
      (self.prepare obj).2.m_hashalg = self.m_hashalg := by
  cases hh : self.m_hashalg <;> simp [P11OAEPEncryptBenchmark.prepare, hm, hh]

theorem oaep_bound_in_range (self : P11OAEPEncryptBenchmark) (size : Nat)
    (hlo : 2 * self.m_hashalg.digest_length + 2 ≤ self.m_modulus_size_bytes)
    (hhi : self.m_modulus_size_bytes < 2 ^ 64) :
    (self.is_payload_supported size = true ↔
      size ≤ self.m_modulus_size_bytes - 2 * self.m_hashalg.digest_length - 2) := by
  have hpos : self.m_modulus_size_bytes ≠ 0 := by omega
  cases hh : self.m_hashalg <;>
    simp only [hh, HashAlg.digest_length] at hlo <;>
    simp [P11OAEPEncryptBenchmark.is_payload_supported, hpos, hh, HashAlg.digest_length,
      size_t_sub, size_t_mul] <;>
    omega

/-! ## The properties of the harness -/

/-- C1: a run of execute whose outcome is Ok returns a timing vector with
exactly iterations entries, whatever the number of warm-up iterations, and the
entries are the snapshots taken during the run, in order. -/
theorem execute_ok_records_length {τ : Type} (v : Variant τ) (b : P11Benchmark τ)
    (payload : List Nat) (iterations skipiterations : Nat) (threadindex : Option Nat)
    (hok : (execute v b payload iterations skipiterations threadindex).outcome =
      operation_outcome_t.Ok) :
    (execute v b payload iterations skipiterations threadindex).records.length = iterations ∧
    (execute v b payload iterations skipiterations threadindex).records =
      samples (execute v b payload iterations skipiterations threadindex).trace := by
  cases hacc : v.is_payload_supported b payload.length with
  | false =>
    rw [execute_rejected v b payload iterations skipiterations threadindex hacc] at hok
    simp at hok
  | true =>
    obtain ⟨terr, htr, hrec, hout⟩ :=
      execute_accepted v b payload iterations skipiterations threadindex hacc
    rw [hout] at hok
    obtain ⟨herr, hterr⟩ := final_outcome_eq_Ok hok
    rw [hrec, htr, samples_append, (lifecycle_samples v _ _ _ _).1]
    exact ⟨lifecycle_ok_length v _ _ _ _ herr, by simp [samples]⟩

/-- C1 at a concrete run: three measured and two warm-up iterations, no failure. -/
theorem execute_ok_records_length_witness :
    (execute (scripted true none none none none) fresh [1, 2] 3 2 none).outcome =
        operation_outcome_t.Ok ∧
      (execute (scripted true none none none none) fresh [1, 2] 3 2 none).records.length = 3 :=
  ⟨rfl, (execute_ok_records_length (scripted true none none none none) fresh [1, 2] 3 2 none
    rfl).1⟩

/-- C2, as stated, fails: in a run whose payload size the acceptance check
rejects no hook fails, yet crashtestdummy is not invoked at all. -/
theorem execute_rejected_no_invocation :
    firstFailure (execute (scripted false none none none none) fresh [1, 2] 100 10 none).trace =
        none ∧
      invocations Hook.crashtestdummy
        (execute (scripted false none none none none) fresh [1, 2] 100 10 none).trace ≠
          100 + 10 := by
  decide

/-- C2, amended: in a run of execute whose payload size is accepted and in
which no hook fails, crashtestdummy is invoked exactly iterations +
skipiterations times and the timing vector has iterations entries; the trace
starts with prepare and skipiterations rounds of crashtestdummy and cleanup
without any snapshot, and the snapshots of the remaining part M, which holds
the other iterations invocations, are the timing vector. -/
theorem execute_no_failure_invocations {τ : Type} (v : Variant τ) (b : P11Benchmark τ)
    (payload : List Nat) (iterations skipiterations : Nat) (threadindex : Option Nat)
    (hacc : v.is_payload_supported b payload.length = true)
    (hnf : firstFailure (execute v b payload iterations skipiterations threadindex).trace =
      none) :
    invocations Hook.crashtestdummy
        (execute v b payload iterations skipiterations threadindex).trace =
      iterations + skipiterations ∧
    (execute v b payload iterations skipiterations threadindex).records.length = iterations ∧
    ∃ M, (execute v b payload iterations skipiterations threadindex).trace =
        Event.call Hook.prepare none ::
          ((List.replicate skipiterations warmupRound).flatten ++ M) ∧
      invocations Hook.crashtestdummy ((List.replicate skipiterations warmupRound).flatten) =
        skipiterations ∧
      samples ((List.replicate skipiterations warmupRound).flatten) = [] ∧
      invocations Hook.crashtestdummy M = iterations ∧
      samples M = (execute v b payload iterations skipiterations threadindex).records := by
  obtain ⟨terr, htr, hrec, _⟩ :=
    execute_accepted v b payload iterations skipiterations threadindex hacc
  rw [htr, firstFailure_append] at hnf
  have hlf : firstFailure
      (lifecycle v { b with m_payload := payload } iterations skipiterations threadindex).trace =
      none := by
    cases hx : firstFailure
      (lifecycle v { b with m_payload := payload } iterations skipiterations threadindex).trace
    · rfl
    · rw [hx] at hnf; simp at hnf
  have herr := lifecycle_firstFailure_error v { b with m_payload := payload }
    iterations skipiterations threadindex
  rw [hlf] at herr
  obtain ⟨M, hM, hsM, hcM, _, _⟩ := lifecycle_ok_trace v { b with m_payload := payload }
    iterations skipiterations threadindex (by simpa using herr.symm)
  have hwc : ∀ k, invocations Hook.crashtestdummy ((List.replicate k warmupRound).flatten) = k ∧
      samples ((List.replicate k warmupRound).flatten) = [] := by
    intro k
    induction k with
    | zero => simp [invocations, samples]
    | succ k ih =>
      simp [List.replicate_succ, warmupRound, invocations_cons, Event.isCall, samples] at ih ⊢
      exact ⟨ih.1, ih.2⟩
  refine ⟨?_, ?_, M ++ [Event.call Hook.teardown terr], ?_, (hwc _).1, (hwc _).2, ?_, ?_⟩
  · rw [htr, hM]
    simp [invocations_cons, invocations_append, Event.isCall, hcM, (hwc skipiterations).1,
      invocations_nil]
    omega
  · rw [hrec]
    exact lifecycle_ok_length v _ _ _ _ (by simpa using herr.symm)
  · rw [htr, hM]; simp
  · simp [invocations_append, invocations_cons, invocations_nil, Event.isCall, hcM]
  · rw [samples_append, hsM, hrec]; simp [samples]

/-- C2 at a concrete run: three measured and two warm-up iterations give five
invocations of crashtestdummy. -/
theorem execute_no_failure_invocations_witness :
    (scripted true none none none none).is_payload_supported fresh [1, 2].length = true ∧
    firstFailure (execute (scripted true none none none none) fresh [1, 2] 3 2 none).trace =
      none ∧
    invocations Hook.crashtestdummy
      (execute (scripted true none none none none) fresh [1, 2] 3 2 none).trace = 3 + 2 :=
  ⟨rfl, rfl, (execute_no_failure_invocations (scripted true none none none none) fresh [1, 2]
    3 2 none rfl rfl).1⟩

/-- C3, as stated, fails: when cleanup raises after the last measured
iteration, the run has a failing hook and an outcome other than Ok, yet the
timing vector holds all iterations entries, not fewer. -/
theorem execute_failure_full_vector :
    firstFailure
        (execute (scripted true none none (some (HookError.ReturnError 5)) none)
          fresh [1, 2] 1 0 none).trace =
      some (Hook.cleanup, HookError.ReturnError 5) ∧
    ¬ (execute (scripted true none none (some (HookError.ReturnError 5)) none)
        fresh [1, 2] 1 0 none).records.length < 1 := by
  decide

/-- C3, amended: when a hook raises during a run of execute (h is the first
hook that fails, e what it raises), the outcome is not Ok, crashtestdummy is
not invoked after the failure, and the timing vector is exactly the snapshots
taken before the failure, in order.  It has fewer than iterations entries,
except in three cases, in which it has exactly iterations entries: iterations
is 0, the failing hook is teardown, or the failing hook is the cleanup that
follows the last invocation of crashtestdummy (all iterations +
skipiterations invocations were made). -/
theorem execute_failure_stops {τ : Type} (v : Variant τ) (b : P11Benchmark τ)
    (payload : List Nat) (iterations skipiterations : Nat) (threadindex : Option Nat)
    (h : Hook) (e : HookError)
    (hf : firstFailure (execute v b payload iterations skipiterations threadindex).trace =
      some (h, e)) :
    (execute v b payload iterations skipiterations threadindex).outcome ≠
      operation_outcome_t.Ok ∧
    (∀ ev ∈ afterFailure (execute v b payload iterations skipiterations threadindex).trace,
      ev.isCall Hook.crashtestdummy = false) ∧
    (execute v b payload iterations skipiterations threadindex).records =
      samples (beforeFailure
        (execute v b payload iterations skipiterations threadindex).trace) ∧
    (execute v b payload iterations skipiterations threadindex).records.length ≤ iterations ∧
    ((execute v b payload iterations skipiterations threadindex).records.length < iterations ↔
      (0 < iterations ∧ h ≠ Hook.teardown ∧
        ¬ (h = Hook.cleanup ∧
          invocations Hook.crashtestdummy
            (execute v b payload iterations skipiterations threadindex).trace =
              iterations + skipiterations))) ∧
    ((execute v b payload iterations skipiterations threadindex).records.length = iterations ↔
      (iterations = 0 ∨ h = Hook.teardown ∨
        (h = Hook.cleanup ∧
          invocations Hook.crashtestdummy
            (execute v b payload iterations skipiterations threadindex).trace =
              iterations + skipiterations))) := by
  have hlogic : ∀ (L n : Nat) (T C : Prop), L ≤ n → (L < n ↔ (0 < n ∧ ¬ T ∧ ¬ C)) →
      (L = n ↔ (n = 0 ∨ T ∨ C)) := by
    intro L n T C hle hlt
    by_cases hT : T <;> by_cases hC : C <;> simp [hT, hC] at hlt ⊢ <;> omega
  cases hacc : v.is_payload_supported b payload.length with
  | false =>
    rw [execute_rejected v b payload iterations skipiterations threadindex hacc] at hf
    simp [firstFailure] at hf
  | true =>
    obtain ⟨terr, htr, hrec, hout⟩ :=
      execute_accepted v b payload iterations skipiterations threadindex hacc
    have herr := lifecycle_firstFailure_error v { b with m_payload := payload }
      iterations skipiterations threadindex
    have hsam := lifecycle_samples v { b with m_payload := payload }
      iterations skipiterations threadindex
    have hle := lifecycle_length_le v { b with m_payload := payload }
      iterations skipiterations threadindex
    have haf := lifecycle_afterFailure v { b with m_payload := payload }
      iterations skipiterations threadindex
    rw [htr, firstFailure_append] at hf
    rw [htr, hrec, hout, afterFailure_append, beforeFailure_append]
    cases hx : firstFailure
      (lifecycle v { b with m_payload := payload } iterations skipiterations threadindex).trace
      with
    | some x =>
      rw [hx] at hf herr
      simp only [Option.some.injEq] at hf
      subst hf
      have hhook := lifecycle_failure_hook v { b with m_payload := payload }
        iterations skipiterations threadindex h e hx
      have hlen := lifecycle_failure_length v { b with m_payload := payload }
        iterations skipiterations threadindex h e hx
      have hcount : invocations Hook.crashtestdummy
          ((lifecycle v { b with m_payload := payload } iterations skipiterations
            threadindex).trace ++ [Event.call Hook.teardown terr]) =
          invocations Hook.crashtestdummy
            (lifecycle v { b with m_payload := payload } iterations skipiterations
              threadindex).trace := by
        simp [invocations_append, invocations_cons, invocations_nil, Event.isCall]
      rw [hcount]
      have hlt : ((lifecycle v { b with m_payload := payload } iterations skipiterations
            threadindex).records.length < iterations ↔
          (0 < iterations ∧ ¬ (h = Hook.teardown) ∧
            ¬ (h = Hook.cleanup ∧
              invocations Hook.crashtestdummy
                (lifecycle v { b with m_payload := payload } iterations skipiterations
                  threadindex).trace = iterations + skipiterations))) := by
        rw [hlen]
        constructor
        · rintro ⟨h1, h2⟩; exact ⟨h1, hhook.1, h2⟩
        · rintro ⟨h1, _, h2⟩; exact ⟨h1, h2⟩
      refine ⟨?_, ?_, ?_, hle, hlt, hlogic _ _ _ _ hle hlt⟩
      · rw [← herr]
        cases e <;> simp [final_outcome, classify]
      · simp [haf, Event.isCall]
      · simpa using hsam.2.symm
    | none =>
      rw [hx] at hf herr
      cases terr with
      | none => simp [firstFailure] at hf
      | some e1 =>
        simp only [firstFailure, Option.some.injEq, Prod.mk.injEq] at hf
        obtain ⟨hh, he⟩ := hf
        subst hh he
        have hfull := lifecycle_ok_length v { b with m_payload := payload }
          iterations skipiterations threadindex (by simpa using herr.symm)
        refine ⟨?_, ?_, ?_, hle, ?_, ?_⟩
        · rw [← herr]
          cases e1 <;> simp [final_outcome, classify]
        · simp [afterFailure]
        · simp [beforeFailure, hsam.1]
        · simp [hfull]
        · simp [hfull]

/-- C3 at a concrete run: crashtestdummy raises NotFound in the first measured
iteration of three. -/
theorem execute_failure_stops_witness :
    firstFailure
        (execute (scripted true none (some (HookError.NotFound "key")) none none)
          fresh [1, 2] 3 0 none).trace =
      some (Hook.crashtestdummy, HookError.NotFound "key") ∧
    (execute (scripted true none (some (HookError.NotFound "key")) none none)
      fresh [1, 2] 3 0 none).records.length < 3 :=
  ⟨rfl, ((execute_failure_stops (scripted true none (some (HookError.NotFound "key")) none none)
    fresh [1, 2] 3 0 none Hook.crashtestdummy (HookError.NotFound "key") rfl).2.2.2.2.1).mpr
      ⟨by decide, by decide, by decide⟩⟩

/-- C4: the outcome of a run of execute keeps the category of the failure that
ended the run (e, raised by the first failing hook h): a return code gives
ApiErr with that code, NotFound gives NotFound and AmbiguousResult gives
AmbiguousResult, each with its label; a search failure is never reported as
ApiErr and a return code never as NotFound or AmbiguousResult. -/
theorem execute_outcome_category {τ : Type} (v : Variant τ) (b : P11Benchmark τ)
    (payload : List Nat) (iterations skipiterations : Nat) (threadindex : Option Nat)
    (h : Hook) (e : HookError)
    (hf : firstFailure (execute v b payload iterations skipiterations threadindex).trace =
      some (h, e)) :
    match e with
    | HookError.ReturnError code =>
      (execute v b payload iterations skipiterations threadindex).outcome =
          operation_outcome_t.ApiErr code ∧
        ∀ label,
          (execute v b payload iterations skipiterations threadindex).outcome ≠
              operation_outcome_t.NotFound label ∧
            (execute v b payload iterations skipiterations threadindex).outcome ≠
              operation_outcome_t.AmbiguousResult label
    | HookError.NotFound label =>
      (execute v b payload iterations skipiterations threadindex).outcome =
          operation_outcome_t.NotFound label ∧
        ∀ code,
          (execute v b payload iterations skipiterations threadindex).outcome ≠
            operation_outcome_t.ApiErr code
    | HookError.AmbiguousResult label =>
      (execute v b payload iterations skipiterations threadindex).outcome =
          operation_outcome_t.AmbiguousResult label ∧
        ∀ code,
          (execute v b payload iterations skipiterations threadindex).outcome ≠
            operation_outcome_t.ApiErr code
    | HookError.PayloadSizeNotSupported size =>
      (execute v b payload iterations skipiterations threadindex).outcome =
        operation_outcome_t.PayloadSizeNotSupported size := by
  have hcl : (execute v b payload iterations skipiterations threadindex).outcome =
      classify e := by
    cases hacc : v.is_payload_supported b payload.length with
    | false =>
      rw [execute_rejected v b payload iterations skipiterations threadindex hacc] at hf
      simp [firstFailure] at hf
    | true =>
      obtain ⟨terr, htr, _, hout⟩ :=
        execute_accepted v b payload iterations skipiterations threadindex hacc
      have herr := lifecycle_firstFailure_error v { b with m_payload := payload }
        iterations skipiterations threadindex
      rw [htr, firstFailure_append] at hf
      rw [hout]
      cases hx : firstFailure
        (lifecycle v { b with m_payload := payload } iterations skipiterations
          threadindex).trace with
      | some x =>
        rw [hx] at hf herr
        simp only [Option.some.injEq] at hf
        subst hf
        rw [← herr]
        simp [final_outcome]
      | none =>
        rw [hx] at hf herr
        cases terr with
        | none => simp [firstFailure] at hf
        | some e1 =>
          simp only [firstFailure, Option.some.injEq, Prod.mk.injEq] at hf
          rw [← herr, ← hf.2]
          simp [final_outcome]
  cases e <;> simp [hcl, classify]

/-- C4 at a concrete run: crashtestdummy raises NotFound and teardown then raises a
return code; the outcome is NotFound. -/
theorem execute_outcome_category_witness :
    firstFailure
        (execute (scripted true none (some (HookError.NotFound "key")) none
          (some (HookError.ReturnError 5))) fresh [1, 2] 3 1 none).trace =
      some (Hook.crashtestdummy, HookError.NotFound "key") ∧
    (execute (scripted true none (some (HookError.NotFound "key")) none
      (some (HookError.ReturnError 5))) fresh [1, 2] 3 1 none).outcome =
        operation_outcome_t.NotFound "key" :=
  ⟨rfl, (execute_outcome_category (scripted true none (some (HookError.NotFound "key")) none
    (some (HookError.ReturnError 5))) fresh [1, 2] 3 1 none Hook.crashtestdummy
      (HookError.NotFound "key") rfl).1⟩

/-- C5: a payload size that is_payload_supported rejects is detected before
any hook runs: no measured iteration is executed (the trace is empty, so
crashtestdummy is never invoked), the timing vector is empty, and the outcome
is PayloadSizeNotSupported carrying the rejected size. -/
theorem execute_rejected_payload {τ : Type} (v : Variant τ) (b : P11Benchmark τ)
    (payload : List Nat) (iterations skipiterations : Nat) (threadindex : Option Nat)
    (hrej : v.is_payload_supported b payload.length = false) :
    (execute v b payload iterations skipiterations threadindex).trace = [] ∧
    invocations Hook.crashtestdummy
      (execute v b payload iterations skipiterations threadindex).trace = 0 ∧
    (execute v b payload iterations skipiterations threadindex).records = [] ∧
    (execute v b payload iterations skipiterations threadindex).outcome =
      operation_outcome_t.PayloadSizeNotSupported payload.length := by
  rw [execute_rejected v b payload iterations skipiterations threadindex hrej]
  simp [invocations]

/-- C5 at a concrete run: a payload of three bytes that the variant rejects. -/
theorem execute_rejected_payload_witness :
    (scripted false none none none none).is_payload_supported fresh [1, 2, 3].length = false ∧
    (execute (scripted false none none none none) fresh [1, 2, 3] 4 1 none).outcome =
      operation_outcome_t.PayloadSizeNotSupported 3 :=
  ⟨rfl, (execute_rejected_payload (scripted false none none none none) fresh [1, 2, 3] 4 1 none
    rfl).2.2.2⟩

/-- C6, as stated, fails: in a run whose payload size the acceptance check
rejects, neither prepare nor teardown is invoked. -/
theorem execute_rejected_no_prepare :
    invocations Hook.prepare
        (execute (scripted false none none none none) fresh [1, 2] 3 1 none).trace = 0 ∧
      invocations Hook.teardown
        (execute (scripted false none none none none) fresh [1, 2] 3 1 none).trace = 0 := by
  decide

/-- C6, amended: in every run of execute whose payload size is_payload_supported
accepts, the trace is one invocation of prepare, then events that are neither
prepare nor teardown (so every invocation of crashtestdummy lies among them),
then one invocation of teardown: prepare is invoked exactly once and first,
teardown exactly once and last, also when a hook failed.  In every run whose
payload size is rejected the trace is empty: neither prepare nor teardown is
invoked. -/
theorem execute_prepare_teardown_once {τ : Type} (v : Variant τ) (b : P11Benchmark τ)
    (payload : List Nat) (iterations skipiterations : Nat) (threadindex : Option Nat) :
    (v.is_payload_supported b payload.length = true →
      (∃ e0 mid e1,
        (execute v b payload iterations skipiterations threadindex).trace =
          Event.call Hook.prepare e0 :: (mid ++ [Event.call Hook.teardown e1]) ∧
        (∀ ev ∈ mid, ev.isCall Hook.prepare = false ∧ ev.isCall Hook.teardown = false) ∧
        invocations Hook.crashtestdummy mid =
          invocations Hook.crashtestdummy
            (execute v b payload iterations skipiterations threadindex).trace) ∧
      invocations Hook.prepare
        (execute v b payload iterations skipiterations threadindex).trace = 1 ∧
      invocations Hook.teardown
        (execute v b payload iterations skipiterations threadindex).trace = 1) ∧
    (v.is_payload_supported b payload.length = false →
      (execute v b payload iterations skipiterations threadindex).trace = [] ∧
      invocations Hook.prepare
        (execute v b payload iterations skipiterations threadindex).trace = 0 ∧
      invocations Hook.teardown
        (execute v b payload iterations skipiterations threadindex).trace = 0) := by
  refine ⟨?_, ?_⟩
  swap
  · intro hrej
    rw [execute_rejected v b payload iterations skipiterations threadindex hrej]
    simp [invocations]
  intro hacc
  obtain ⟨terr, htr, _, _⟩ :=
    execute_accepted v b payload iterations skipiterations threadindex hacc
  obtain ⟨e0, mid, hmid, hev⟩ := lifecycle_shape v { b with m_payload := payload }
    iterations skipiterations threadindex
  have hp : invocations Hook.prepare mid = 0 := by
    simp only [invocations, List.countP_eq_zero]
    intro ev hm
    simp [(hev ev hm).1]
  have ht : invocations Hook.teardown mid = 0 := by
    simp only [invocations, List.countP_eq_zero]
    intro ev hm
    simp [(hev ev hm).2]
  rw [htr, hmid]
  refine ⟨⟨e0, mid, terr, by simp, hev, ?_⟩, ?_, ?_⟩
  · simp [invocations_cons, invocations_append, invocations_nil, Event.isCall]
  · simp [invocations_cons, invocations_append, invocations_nil, Event.isCall, hp]
  · simp [invocations_cons, invocations_append, invocations_nil, Event.isCall, ht]

/-- C6 at concrete runs: crashtestdummy raises and teardown is still invoked
once; a rejected payload leaves prepare without invocation. -/
theorem execute_prepare_teardown_once_witness :
    (scripted true none (some (HookError.ReturnError 5)) none none).is_payload_supported
        fresh [1, 2].length = true ∧
    invocations Hook.teardown
      (execute (scripted true none (some (HookError.ReturnError 5)) none none)
        fresh [1, 2] 3 1 none).trace = 1 ∧
    (scripted false none none none none).is_payload_supported fresh [1, 2].length = false ∧
    invocations Hook.prepare
      (execute (scripted false none none none none) fresh [1, 2] 3 1 none).trace = 0 :=
  ⟨rfl, ((execute_prepare_teardown_once
    (scripted true none (some (HookError.ReturnError 5)) none none)
    fresh [1, 2] 3 1 none).1 rfl).2.2,
   rfl, ((execute_prepare_teardown_once (scripted false none none none none)
    fresh [1, 2] 3 1 none).2 rfl).2.1⟩

/-- C8: every value of operation_outcome_t holds exactly one of the five
alternatives Ok, ApiErr (with a return code), NotFound (with a label),
AmbiguousResult (with a label), PayloadSizeNotSupported (with a size): its
index is below five and tells which one, so no two alternatives hold of the
same value and there is no sixth. -/
theorem operation_outcome_alternatives (o : operation_outcome_t) :
    o.index < 5 ∧
    (o.index = 0 ↔ o = operation_outcome_t.Ok) ∧
    (o.index = 1 ↔ ∃ code, o = operation_outcome_t.ApiErr code) ∧
    (o.index = 2 ↔ ∃ label, o = operation_outcome_t.NotFound label) ∧
    (o.index = 3 ↔ ∃ label, o = operation_outcome_t.AmbiguousResult label) ∧
    (o.index = 4 ↔ ∃ size, o = operation_outcome_t.PayloadSizeNotSupported size) := by
  cases o <;> simp [operation_outcome_t.index]

/-! ## The properties of the OAEP encryption variant -/

/-- C9 at a failing input: with SHA256 and a key whose modulus has 64 bytes
(RSA 512), prepare resolves the modulus size 64, and is_payload_supported then
accepts the payload size 1, although 1 is not at most 64 - 2*32 - 2, which is
negative: the unsigned subtraction wraps around. -/
theorem oaep_small_modulus_accepts :
    (P11OAEPEncryptBenchmark.prepare { m_hashalg := HashAlg.SHA256 }
        (keyWithModulus 64)).2.m_modulus_size_bytes = 64 ∧
    (P11OAEPEncryptBenchmark.prepare { m_hashalg := HashAlg.SHA256 }
        (keyWithModulus 64)).2.is_payload_supported 1 = true ∧
    ¬ ((1 : Int) ≤ 64 - 2 * 32 - 2) := by
  decide

/-- C10: for the OAEP encryption variant with SHA256, after prepare has
resolved a key whose modulus has 256 bytes, is_payload_supported accepts a
payload size exactly when it is at most 190: every size from 0 to 190 is
accepted, 191 and every larger size is rejected. -/
theorem oaep_sha256_modulus_256 (self : P11OAEPEncryptBenchmark) (obj : Object)
    (modulus : List Nat) (hh : self.m_hashalg = HashAlg.SHA256)
    (hm : obj.get_attribute_value AttributeType.Modulus = Except.ok modulus)
    (hl : modulus.length = 256) (size : Nat) :
    ((self.prepare obj).2.is_payload_supported size = true ↔ size ≤ 190) ∧
    ((self.prepare obj).2.is_payload_supported 190 = true) ∧
    ((self.prepare obj).2.is_payload_supported 191 = false) := by
  obtain ⟨_, h1, h2⟩ := oaep_prepare_resolved self obj modulus hm
  rw [hl] at h1
  rw [hh] at h2
  have key : ∀ k, ((self.prepare obj).2.is_payload_supported k = true ↔ k ≤ 190) := by
    intro k
    have := oaep_bound_in_range (self.prepare obj).2 k
      (by rw [h1, h2]; decide) (by rw [h1]; decide)
    rw [h1, h2] at this
    simpa [HashAlg.digest_length] using this
  refine ⟨key size, (key 190).mpr (by decide), ?_⟩
  cases hx : (self.prepare obj).2.is_payload_supported 191
  · rfl
  · exact absurd ((key 191).mp hx) (by decide)

/-- C10 at a concrete key: a modulus of 256 bytes, payload size 191 is rejected. -/
theorem oaep_sha256_modulus_256_witness :
    ({ m_hashalg := HashAlg.SHA256 } : P11OAEPEncryptBenchmark).m_hashalg = HashAlg.SHA256 ∧
    (keyWithModulus 256).get_attribute_value AttributeType.Modulus =
      Except.ok (List.replicate 256 1) ∧
    (List.replicate 256 1).length = 256 ∧
    (P11OAEPEncryptBenchmark.prepare { m_hashalg := HashAlg.SHA256 }
      (keyWithModulus 256)).2.is_payload_supported 191 = false :=
  ⟨rfl, rfl, List.length_replicate 256 1,
    (oaep_sha256_modulus_256 { m_hashalg := HashAlg.SHA256 } (keyWithModulus 256)
      (List.replicate 256 1) rfl rfl (List.length_replicate 256 1) 191).2.2⟩

/-- C11: as long as the modulus size of the OAEP encryption variant is still 0,
which is its value from construction until prepare resolves a key,
is_payload_supported returns true for every payload size, whatever the hash
algorithm. -/
theorem oaep_unresolved_accepts (self : P11OAEPEncryptBenchmark) (payload_size : Nat)
    (h : self.m_modulus_size_bytes = 0) :
    self.is_payload_supported payload_size = true ∧
    ∀ hashalg : HashAlg,
      ({ m_hashalg := hashalg } : P11OAEPEncryptBenchmark).m_modulus_size_bytes = 0 ∧
      ({ m_hashalg := hashalg } : P11OAEPEncryptBenchmark).is_payload_supported payload_size =
        true := by
  refine ⟨by simp [P11OAEPEncryptBenchmark.is_payload_supported, h], ?_⟩
  intro hashalg
  simp [P11OAEPEncryptBenchmark.is_payload_supported]

/-- C11 at a concrete object: a SHA256 variant before prepare accepts a
payload of a million bytes. -/
theorem oaep_unresolved_accepts_witness :
    ({ m_hashalg := HashAlg.SHA256 } : P11OAEPEncryptBenchmark).m_modulus_size_bytes = 0 ∧
    ({ m_hashalg := HashAlg.SHA256 } : P11OAEPEncryptBenchmark).is_payload_supported 1000000 =
      true :=
  ⟨rfl, (oaep_unresolved_accepts { m_hashalg := HashAlg.SHA256 } 1000000 rfl).1⟩

/-- C12 at a failing input: a SHA1 variant holding a payload of 300 bytes is
prepared on a key whose modulus has 256 bytes.  The payload is longer than
256 - 2*20 - 2 = 214 bytes, and after prepare is_payload_supported rejects the
size 300, yet prepare returns normally and leaves the payload as it was: it
performs no check of the payload size. -/
theorem oaep_prepare_accepts_long_payload :
    (oaepWithPayload HashAlg.SHA1 300).m_payload.length = 300 ∧
    256 - 2 * 20 - 2 < 300 ∧
    (P11OAEPEncryptBenchmark.prepare_hook (keyWithModulus 256) none
      (oaepWithPayload HashAlg.SHA1 300)).1 = none ∧
    (P11OAEPEncryptBenchmark.prepare_hook (keyWithModulus 256) none
      (oaepWithPayload HashAlg.SHA1 300)).2.m_payload.length = 300 ∧
    (P11OAEPEncryptBenchmark.prepare_hook (keyWithModulus 256) none
      (oaepWithPayload HashAlg.SHA1 300)).2.derived.is_payload_supported 300 = false := by
  have hm : (keyWithModulus 256).get_attribute_value AttributeType.Modulus =
      Except.ok (List.replicate 256 1) := rfl
  obtain ⟨h0, h1, h2⟩ :=
    oaep_prepare_resolved (oaepWithPayload HashAlg.SHA1 300).derived (keyWithModulus 256)
      (List.replicate 256 1) hm
  rw [List.length_replicate] at h1
  have h3 : (oaepWithPayload HashAlg.SHA1 300).derived.m_hashalg = HashAlg.SHA1 := rfl
  rw [h3] at h2
  refine ⟨by simp only [oaepWithPayload, List.length_replicate], by decide, h0, by
    simp only [P11OAEPEncryptBenchmark.prepare_hook, oaepWithPayload, List.length_replicate],
    ?_⟩
  have key := oaep_bound_in_range
    ((oaepWithPayload HashAlg.SHA1 300).derived.prepare (keyWithModulus 256)).2 300
    (by rw [h1, h2]; decide) (by rw [h1]; decide)
  rw [h1, h2] at key
  simp only [P11OAEPEncryptBenchmark.prepare_hook]
  cases hx : ((oaepWithPayload HashAlg.SHA1 300).derived.prepare
      (keyWithModulus 256)).2.is_payload_supported 300
  · rfl
  · exact absurd (key.mp hx) (by decide)

/-- C13: the default acceptance check P11Benchmark::is_payload_supported, which a
variant gets when it does not override it, returns true for every payload
size, in every state of the benchmark object. -/
theorem default_is_payload_supported {τ : Type} (b : P11Benchmark τ) (payload_size : Nat) :
    b.is_payload_supported payload_size = true := by
  rfl

/-- C14: the variants AES-GCM, HMAC-SHA1 and HMAC-SHA512 do not override
is_payload_supported, so each accepts every payload size; the size 17, which
is not a multiple of 16, is among them. -/
theorem stream_variants_accept_all (payload_size : Nat)
    (g : P11Benchmark P11AESGCMBenchmark) (h1 : P11Benchmark P11HMACSHA1Benchmark)
    (h512 : P11Benchmark P11HMACSHA512Benchmark) :
    P11AESGCMBenchmark.is_payload_supported g payload_size = true ∧
    P11HMACSHA1Benchmark.is_payload_supported h1 payload_size = true ∧
    P11HMACSHA512Benchmark.is_payload_supported h512 payload_size = true ∧
    17 % 16 ≠ 0 ∧
    P11AESGCMBenchmark.is_payload_supported g 17 = true ∧
    P11HMACSHA1Benchmark.is_payload_supported h1 17 = true ∧
    P11HMACSHA512Benchmark.is_payload_supported h512 17 = true := by
  refine ⟨rfl, rfl, rfl, by decide, rfl, rfl, rfl⟩

/-- C15: the block-mode variants accept a payload size exactly when it is a
multiple of the block size: 16 for AES-CBC, 8 for Triple-DES CBC and for
Triple-DES ECB. -/
theorem block_variants_accept_multiples (payload_size : Nat) (a : P11AESCBCBenchmark)
    (c : P11DES3CBCBenchmark) (e : P11DES3ECBBenchmark) :
    (a.is_payload_supported payload_size = true ↔ payload_size % 16 = 0) ∧
    (c.is_payload_supported payload_size = true ↔ payload_size % 8 = 0) ∧
    (e.is_payload_supported payload_size = true ↔ payload_size % 8 = 0) := by
  simp [P11AESCBCBenchmark.is_payload_supported, P11DES3CBCBenchmark.is_payload_supported,
    P11DES3ECBBenchmark.is_payload_supported]

/-! ## The properties of the timer -/

theorem timer_run_append {τ : Type} (l1 l2 : List (Nat × TimerCall)) (b : P11Benchmark τ) :
    timer_run (l1 ++ l2) b = timer_run l2 (timer_run l1 b) := by
  induction l1 generalizing b with
  | nil => rfl
  | cons x l ih =>
    obtain ⟨d, c⟩ := x
    simp only [List.cons_append, timer_run]
    exact ih _

theorem timer_call_elapsed_le {τ : Type} (d : Nat) (c : TimerCall) (b : P11Benchmark τ) :
    b.elapsed ≤ (c.apply (b.tick d)).elapsed := by
  cases c <;>
    simp [TimerCall.apply, P11Benchmark.suspend_timer, P11Benchmark.resume_timer,
      P11Benchmark.tick, P11Benchmark.elapsed]

theorem timer_call_baseline {τ : Type} (d : Nat) (c : TimerCall) (b : P11Benchmark τ)
    (h : b.m_last_clock ≤ b.now) :
    (c.apply (b.tick d)).m_last_clock ≤ (c.apply (b.tick d)).now := by
  cases c
  · simp only [TimerCall.apply, P11Benchmark.suspend_timer, P11Benchmark.tick]
    omega
  · simp [TimerCall.apply, P11Benchmark.resume_timer, P11Benchmark.tick]

theorem timer_run_elapsed_le {τ : Type} (l : List (Nat × TimerCall)) (b : P11Benchmark τ) :
    b.elapsed ≤ (timer_run l b).elapsed := by
  induction l generalizing b with
  | nil => exact Nat.le_refl _
  | cons x l ih =>
    obtain ⟨d, c⟩ := x
    exact Nat.le_trans (timer_call_elapsed_le d c b) (ih _)

theorem timer_run_baseline {τ : Type} (l : List (Nat × TimerCall)) (b : P11Benchmark τ)
    (h : b.m_last_clock ≤ b.now) :
    (timer_run l b).m_last_clock ≤ (timer_run l b).now := by
  induction l generalizing b with
  | nil => exact h
  | cons x l ih =>
    obtain ⟨d, c⟩ := x
    exact ih _ (timer_call_baseline d c b h)

/-- C20: resume_timer records the current instant as the new baseline and
leaves the accumulated time unchanged; suspend_timer adds the time elapsed
since the baseline to the accumulator, so it does not lower it; over any
sequence of suspend_timer and resume_timer calls that follows a reset (pre,
then post, with any passing of time between the calls), the baseline never
lies after the current instant, so the time added is never negative, and the
value returned by elapsed after pre is at most the value after pre and
post: it never decreases. -/
theorem timer_elapsed_never_decreases {τ : Type} (b : P11Benchmark τ)
    (pre post : List (Nat × TimerCall)) :
    b.resume_timer.m_last_clock = b.now ∧
    b.resume_timer.elapsed = b.elapsed ∧
    b.suspend_timer.elapsed = b.elapsed + (b.now - b.m_last_clock) ∧
    b.elapsed ≤ b.suspend_timer.elapsed ∧
    (timer_run pre b.reset_timer).m_last_clock ≤ (timer_run pre b.reset_timer).now ∧
    (timer_run pre b.reset_timer).elapsed ≤
      (timer_run (pre ++ post) b.reset_timer).elapsed := by
  refine ⟨rfl, rfl, rfl, ?_, ?_, ?_⟩
  · simp [P11Benchmark.suspend_timer, P11Benchmark.elapsed]
  · exact timer_run_baseline pre _ (by simp [P11Benchmark.reset_timer])
  · rw [timer_run_append]
    exact timer_run_elapsed_le post _

/-! ## Lemmas on the token session -/

theorem objects_append_some (slots : List (Option TokenObject)) (o : TokenObject)
    (capacity : Nat) :
    ({ slots := slots ++ [some o], capacity := capacity } : Session).objects =
      ({ slots := slots, capacity := capacity } : Session).objects ++ [o] := by
  simp [Session.objects, List.reduceOption_append]

theorem objects_append_none (slots : List (Option TokenObject)) (capacity : Nat) :
    ({ slots := slots ++ [none], capacity := capacity } : Session).objects =
      ({ slots := slots, capacity := capacity } : Session).objects := by
  simp [Session.objects, List.reduceOption_append]

theorem set_length_append {α : Type} (l : List α) (a c : α) :
    (l ++ [a]).set l.length c = l ++ [c] := by
  induction l with
  | nil => rfl
  | cons x l ih => simp [ih]

theorem getD_length_append {α : Type} (l : List α) (a d : α) :
    (l ++ [a]).getD l.length d = a := by
  induction l with
  | nil => rfl
  | cons x l ih => simp [ih]

theorem create_object_ok (s : Session) (o : TokenObject) (h : Nat) (s1 : Session)
    (hc : s.create_object o = Except.ok (h, s1)) :
    s.object_count < s.capacity ∧ h = s.slots.length ∧
      s1 = { slots := s.slots ++ [some o], capacity := s.capacity } := by
  unfold Session.create_object at hc
  split at hc
  · rename_i hlt
    simp only [Except.ok.injEq, Prod.mk.injEq] at hc
    exact ⟨hlt, hc.1.symm, hc.2.symm⟩
  · cases hc

theorem create_object_room (s : Session) (o : TokenObject)
    (hroom : s.object_count < s.capacity) :
    s.create_object o =
      Except.ok (s.slots.length, { slots := s.slots ++ [some o], capacity := s.capacity }) := by
  simp [Session.create_object, hroom]

theorem create_object_error (s : Session) (o : TokenObject) (code : Int)
    (hc : s.create_object o = Except.error code) : ¬ s.object_count < s.capacity := by
  intro hroom
  rw [create_object_room s o hroom] at hc
  cases hc

theorem derive_then_destroy (s : Session) (mechanism base : Nat) (template : TokenObject)
    (h : Nat) (s1 : Session) (hd : s.C_DeriveKey mechanism base template = Except.ok (h, s1)) :
    s1.objects = s.objects ++ [template] ∧ s1.is_live h = true ∧
      ∃ s2, s1.C_DestroyObject h = Except.ok s2 ∧ s2.objects = s.objects ∧
        s2.capacity = s.capacity := by
  unfold Session.C_DeriveKey at hd
  split at hd
  · obtain ⟨_, hh, hs1⟩ := create_object_ok s template h s1 hd
    subst hh hs1
    have hlive : ({ slots := s.slots ++ [some template], capacity := s.capacity } :
        Session).is_live s.slots.length = true := by
      simp [Session.is_live, getD_length_append]
    refine ⟨objects_append_some _ _ _, hlive, ?_⟩
    refine ⟨{ slots := s.slots ++ [none], capacity := s.capacity }, ?_, ?_, rfl⟩
    · simp [Session.C_DestroyObject, hlive, set_length_append]
    · exact objects_append_none _ _
  · cases hd

theorem derive_room (s : Session) (mechanism base : Nat) (template : TokenObject)
    (hlive : s.is_live base = true) (hroom : s.object_count < s.capacity) :
    ∃ h s1, s.C_DeriveKey mechanism base template = Except.ok (h, s1) := by
  exact ⟨s.slots.length, { slots := s.slots ++ [some template], capacity := s.capacity }, by
    simp [Session.C_DeriveKey, hlive, create_object_room s template hroom]⟩

theorem iterate_preserves {τ α : Type} (v : Variant τ) (measured : Bool)
    (f : P11Benchmark τ → α)
    (hfail : ∀ b e b1, v.crashtestdummy b = (some e, b1) → f b1 = f b)
    (hpair : ∀ b b1 e b2, v.crashtestdummy b = (none, b1) → v.cleanup b1 = (e, b2) →
      f b2 = f b) :
    ∀ k b, f (iterate v measured k b).state = f b := by
  refine iterate_induction v measured (motive := fun _ b r => f r.state = f b) ?_ ?_ ?_ ?_
  · intro b; rfl
  · intro k b e b1 h1; exact hfail b e b1 h1
  · intro k b b1 e b2 h1 h2; exact hpair b b1 (some e) b2 h1 h2
  · intro k b b1 b2 h1 h2 ih
    exact ih.trans (hpair b b1 none b2 h1 h2)

/-! ## Lemmas on the derive-and-destroy variants -/

theorem xor_derive_ctd_error (x : P11Benchmark (WithSession P11XorKeyDataDeriveBenchmark)) (code : Int)
    (hd : x.derived.session.C_DeriveKey CKM_XOR_BASE_AND_DATA x.derived.self.m_objhandle
      x.derived.self.m_template = Except.error code) :
    P11XorKeyDataDeriveBenchmark.crashtestdummy x = (some (HookError.ReturnError code), x) := by
  simp [P11XorKeyDataDeriveBenchmark.crashtestdummy, hd]

theorem xor_derive_ctd_ok (x : P11Benchmark (WithSession P11XorKeyDataDeriveBenchmark)) (h : Nat) (s1 : Session)
    (hd : x.derived.session.C_DeriveKey CKM_XOR_BASE_AND_DATA x.derived.self.m_objhandle
      x.derived.self.m_template = Except.ok (h, s1)) :
    P11XorKeyDataDeriveBenchmark.crashtestdummy x =
      (none, { x with derived := { self := { x.derived.self with m_derivedkey := h },
                                   session := s1 } }) := by
  simp [P11XorKeyDataDeriveBenchmark.crashtestdummy, hd]

theorem xor_derive_pair (x : P11Benchmark (WithSession P11XorKeyDataDeriveBenchmark))
    (hok : (P11XorKeyDataDeriveBenchmark.crashtestdummy x).1 = none) :
    (P11XorKeyDataDeriveBenchmark.crashtestdummy x).2.derived.session.objects =
        x.derived.session.objects ++ [x.derived.self.m_template] ∧
      (P11XorKeyDataDeriveBenchmark.crashtestdummy x).2.derived.session.is_live
        (P11XorKeyDataDeriveBenchmark.crashtestdummy x).2.derived.self.m_derivedkey = true ∧
      (P11XorKeyDataDeriveBenchmark.cleanup (P11XorKeyDataDeriveBenchmark.crashtestdummy x).2).1 = none ∧
      (P11XorKeyDataDeriveBenchmark.cleanup (P11XorKeyDataDeriveBenchmark.crashtestdummy x).2).2.derived.session.objects =
        x.derived.session.objects := by
  rcases hd : x.derived.session.C_DeriveKey CKM_XOR_BASE_AND_DATA x.derived.self.m_objhandle
      x.derived.self.m_template with code | ⟨h, s1⟩
  · rw [xor_derive_ctd_error x code hd] at hok
    cases hok
  · obtain ⟨h1, h2, s2, h3, h4, _⟩ := derive_then_destroy _ _ _ _ h s1 hd
    rw [xor_derive_ctd_ok x h s1 hd]
    refine ⟨h1, h2, ?_, ?_⟩
    · simp [P11XorKeyDataDeriveBenchmark.cleanup, h3]
    · simp [P11XorKeyDataDeriveBenchmark.cleanup, h3, h4]

theorem xor_derive_failure (x : P11Benchmark (WithSession P11XorKeyDataDeriveBenchmark))
    (hf : (P11XorKeyDataDeriveBenchmark.crashtestdummy x).1 ≠ none) : (P11XorKeyDataDeriveBenchmark.crashtestdummy x).2 = x := by
  rcases hd : x.derived.session.C_DeriveKey CKM_XOR_BASE_AND_DATA x.derived.self.m_objhandle
      x.derived.self.m_template with code | ⟨h, s1⟩
  · rw [xor_derive_ctd_error x code hd]
  · rw [xor_derive_ctd_ok x h s1 hd] at hf
    exact absurd rfl hf

theorem xor_derive_success (x : P11Benchmark (WithSession P11XorKeyDataDeriveBenchmark))
    (hlive : x.derived.session.is_live x.derived.self.m_objhandle = true)
    (hroom : x.derived.session.object_count < x.derived.session.capacity) :
    (P11XorKeyDataDeriveBenchmark.crashtestdummy x).1 = none := by
  obtain ⟨h, s1, hd⟩ := derive_room x.derived.session CKM_XOR_BASE_AND_DATA x.derived.self.m_objhandle
    x.derived.self.m_template hlive hroom
  rw [xor_derive_ctd_ok x h s1 hd]

theorem xor_derive_iterate (obj : Object) (measured : Bool) (k : Nat)
    (x : P11Benchmark (WithSession P11XorKeyDataDeriveBenchmark)) :
    (iterate (P11XorKeyDataDeriveBenchmark.variant obj) measured k x).state.derived.session.objects =
      x.derived.session.objects := by
  refine iterate_preserves (P11XorKeyDataDeriveBenchmark.variant obj) measured
    (fun b => b.derived.session.objects) ?_ ?_ k x
  · intro b e b1 h1
    have hf : (P11XorKeyDataDeriveBenchmark.crashtestdummy b).1 ≠ none := by
      change (P11XorKeyDataDeriveBenchmark.crashtestdummy b) = (some e, b1) at h1
      rw [h1]; simp
    have := xor_derive_failure b hf
    change (P11XorKeyDataDeriveBenchmark.crashtestdummy b) = (some e, b1) at h1
    rw [h1] at this
    simp only at this
    rw [this]
  · intro b b1 e b2 h1 h2
    change (P11XorKeyDataDeriveBenchmark.crashtestdummy b) = (none, b1) at h1
    change (P11XorKeyDataDeriveBenchmark.cleanup b1) = (e, b2) at h2
    have hp := xor_derive_pair b (by rw [h1])
    rw [h1] at hp
    simp only at hp
    rw [h2] at hp
    exact hp.2.2.2

theorem ecdh_derive_ctd_error (x : P11Benchmark (WithSession P11ECDH1DeriveBenchmark)) (code : Int)
    (hd : x.derived.session.C_DeriveKey CKM_ECDH1_DERIVE x.derived.self.m_objhandle
      x.derived.self.m_template = Except.error code) :
    P11ECDH1DeriveBenchmark.crashtestdummy x = (some (HookError.ReturnError code), x) := by
  simp [P11ECDH1DeriveBenchmark.crashtestdummy, hd]

theorem ecdh_derive_ctd_ok (x : P11Benchmark (WithSession P11ECDH1DeriveBenchmark)) (h : Nat) (s1 : Session)
    (hd : x.derived.session.C_DeriveKey CKM_ECDH1_DERIVE x.derived.self.m_objhandle
      x.derived.self.m_template = Except.ok (h, s1)) :
    P11ECDH1DeriveBenchmark.crashtestdummy x =
      (none, { x with derived := { self := { x.derived.self with m_derivedkey := h },
                                   session := s1 } }) := by
  simp [P11ECDH1DeriveBenchmark.crashtestdummy, hd]

theorem ecdh_derive_pair (x : P11Benchmark (WithSession P11ECDH1DeriveBenchmark))
    (hok : (P11ECDH1DeriveBenchmark.crashtestdummy x).1 = none) :
    (P11ECDH1DeriveBenchmark.crashtestdummy x).2.derived.session.objects =
        x.derived.session.objects ++ [x.derived.self.m_template] ∧
      (P11ECDH1DeriveBenchmark.crashtestdummy x).2.derived.session.is_live
        (P11ECDH1DeriveBenchmark.crashtestdummy x).2.derived.self.m_derivedkey = true ∧
      (P11ECDH1DeriveBenchmark.cleanup (P11ECDH1DeriveBenchmark.crashtestdummy x).2).1 = none ∧
      (P11ECDH1DeriveBenchmark.cleanup (P11ECDH1DeriveBenchmark.crashtestdummy x).2).2.derived.session.objects =
        x.derived.session.objects := by
  rcases hd : x.derived.session.C_DeriveKey CKM_ECDH1_DERIVE x.derived.self.m_objhandle
      x.derived.self.m_template with code | ⟨h, s1⟩
  · rw [ecdh_derive_ctd_error x code hd] at hok
    cases hok
  · obtain ⟨h1, h2, s2, h3, h4, _⟩ := derive_then_destroy _ _ _ _ h s1 hd
    rw [ecdh_derive_ctd_ok x h s1 hd]
    refine ⟨h1, h2, ?_, ?_⟩
    · simp [P11ECDH1DeriveBenchmark.cleanup, h3]
    · simp [P11ECDH1DeriveBenchmark.cleanup, h3, h4]

theorem ecdh_derive_failure (x : P11Benchmark (WithSession P11ECDH1DeriveBenchmark))
    (hf : (P11ECDH1DeriveBenchmark.crashtestdummy x).1 ≠ none) : (P11ECDH1DeriveBenchmark.crashtestdummy x).2 = x := by
  rcases hd : x.derived.session.C_DeriveKey CKM_ECDH1_DERIVE x.derived.self.m_objhandle
      x.derived.self.m_template with code | ⟨h, s1⟩
  · rw [ecdh_derive_ctd_error x code hd]
  · rw [ecdh_derive_ctd_ok x h s1 hd] at hf
    exact absurd rfl hf

theorem ecdh_derive_success (x : P11Benchmark (WithSession P11ECDH1DeriveBenchmark))
    (hlive : x.derived.session.is_live x.derived.self.m_objhandle = true)
    (hroom : x.derived.session.object_count < x.derived.session.capacity) :
    (P11ECDH1DeriveBenchmark.crashtestdummy x).1 = none := by
  obtain ⟨h, s1, hd⟩ := derive_room x.derived.session CKM_ECDH1_DERIVE x.derived.self.m_objhandle
    x.derived.self.m_template hlive hroom
  rw [ecdh_derive_ctd_ok x h s1 hd]

theorem ecdh_derive_iterate (obj : Object) (measured : Bool) (k : Nat)
    (x : P11Benchmark (WithSession P11ECDH1DeriveBenchmark)) :
    (iterate (P11ECDH1DeriveBenchmark.variant obj) measured k x).state.derived.session.objects =
      x.derived.session.objects := by
  refine iterate_preserves (P11ECDH1DeriveBenchmark.variant obj) measured
    (fun b => b.derived.session.objects) ?_ ?_ k x
  · intro b e b1 h1
    have hf : (P11ECDH1DeriveBenchmark.crashtestdummy b).1 ≠ none := by
      change (P11ECDH1DeriveBenchmark.crashtestdummy b) = (some e, b1) at h1
      rw [h1]; simp
    have := ecdh_derive_failure b hf
    change (P11ECDH1DeriveBenchmark.crashtestdummy b) = (some e, b1) at h1
    rw [h1] at this
    simp only at this
    rw [this]
  · intro b b1 e b2 h1 h2
    change (P11ECDH1DeriveBenchmark.crashtestdummy b) = (none, b1) at h1
    change (P11ECDH1DeriveBenchmark.cleanup b1) = (e, b2) at h2
    have hp := ecdh_derive_pair b (by rw [h1])
    rw [h1] at hp
    simp only at hp
    rw [h2] at hp
    exact hp.2.2.2

/-! ## The properties of the derive-and-destroy variants -/

/-- C19: for the XOR derivation variant (x) and the ECDH derivation variant
(e), an invocation of crashtestdummy that returns normally has created exactly
one object on the token, the derived key, whose handle is in m_derivedkey;
the cleanup that follows returns normally and destroys exactly that object,
leaving the objects the token held before; an invocation that raises leaves
everything unchanged, and with a live base key and room on the token the
invocation does return normally.  So after any number k of repetitions of
crashtestdummy and cleanup, in the warm-up or in the measuring phase, the
token holds the same objects, hence as many, as before the first one. -/
theorem derive_and_destroy_no_leak (obj : Object) (measured : Bool) (k : Nat)
    (x : P11Benchmark (WithSession P11XorKeyDataDeriveBenchmark))
    (e : P11Benchmark (WithSession P11ECDH1DeriveBenchmark)) :
    ((P11XorKeyDataDeriveBenchmark.crashtestdummy x).1 = none →
      (P11XorKeyDataDeriveBenchmark.crashtestdummy x).2.derived.session.objects =
          x.derived.session.objects ++ [x.derived.self.m_template] ∧
        (P11XorKeyDataDeriveBenchmark.crashtestdummy x).2.derived.session.is_live
          (P11XorKeyDataDeriveBenchmark.crashtestdummy x).2.derived.self.m_derivedkey = true ∧
        (P11XorKeyDataDeriveBenchmark.cleanup
          (P11XorKeyDataDeriveBenchmark.crashtestdummy x).2).1 = none ∧
        (P11XorKeyDataDeriveBenchmark.cleanup
          (P11XorKeyDataDeriveBenchmark.crashtestdummy x).2).2.derived.session.objects =
            x.derived.session.objects) ∧
    ((P11XorKeyDataDeriveBenchmark.crashtestdummy x).1 ≠ none →
      (P11XorKeyDataDeriveBenchmark.crashtestdummy x).2 = x) ∧
    (x.derived.session.is_live x.derived.self.m_objhandle = true →
      x.derived.session.object_count < x.derived.session.capacity →
      (P11XorKeyDataDeriveBenchmark.crashtestdummy x).1 = none) ∧
    (iterate (P11XorKeyDataDeriveBenchmark.variant obj) measured k x).state.derived.session.objects =
      x.derived.session.objects ∧
    (iterate (P11XorKeyDataDeriveBenchmark.variant obj) measured k
      x).state.derived.session.object_count = x.derived.session.object_count ∧
    ((P11ECDH1DeriveBenchmark.crashtestdummy e).1 = none →
      (P11ECDH1DeriveBenchmark.crashtestdummy e).2.derived.session.objects =
          e.derived.session.objects ++ [e.derived.self.m_template] ∧
        (P11ECDH1DeriveBenchmark.crashtestdummy e).2.derived.session.is_live
          (P11ECDH1DeriveBenchmark.crashtestdummy e).2.derived.self.m_derivedkey = true ∧
        (P11ECDH1DeriveBenchmark.cleanup
          (P11ECDH1DeriveBenchmark.crashtestdummy e).2).1 = none ∧
        (P11ECDH1DeriveBenchmark.cleanup
          (P11ECDH1DeriveBenchmark.crashtestdummy e).2).2.derived.session.objects =
            e.derived.session.objects) ∧
    ((P11ECDH1DeriveBenchmark.crashtestdummy e).1 ≠ none →
      (P11ECDH1DeriveBenchmark.crashtestdummy e).2 = e) ∧
    (e.derived.session.is_live e.derived.self.m_objhandle = true →
      e.derived.session.object_count < e.derived.session.capacity →
      (P11ECDH1DeriveBenchmark.crashtestdummy e).1 = none) ∧
    (iterate (P11ECDH1DeriveBenchmark.variant obj) measured k e).state.derived.session.objects =
      e.derived.session.objects ∧
    (iterate (P11ECDH1DeriveBenchmark.variant obj) measured k
      e).state.derived.session.object_count = e.derived.session.object_count := by
  refine ⟨xor_derive_pair x, xor_derive_failure x, xor_derive_success x,
    xor_derive_iterate obj measured k x, ?_,
    ecdh_derive_pair e, ecdh_derive_failure e, ecdh_derive_success e,
    ecdh_derive_iterate obj measured k e, ?_⟩
  · simp only [Session.object_count, xor_derive_iterate obj measured k x]
  · simp only [Session.object_count, ecdh_derive_iterate obj measured k e]

/-- C19 at concrete runs: on a token with one key and room for five objects,
an invocation of crashtestdummy of either variant returns normally and raises
the number of objects from 1 to 2, the cleanup brings it back to 1, and after
three measured repetitions the token holds 1 object. -/
theorem derive_and_destroy_no_leak_witness :
    (P11XorKeyDataDeriveBenchmark.crashtestdummy (xorDerive 5)).1 = none ∧
    (xorDerive 5).derived.session.object_count = 1 ∧
    (P11XorKeyDataDeriveBenchmark.crashtestdummy (xorDerive 5)).2.derived.session.objects =
      (xorDerive 5).derived.session.objects ++ [(xorDerive 5).derived.self.m_template] ∧
    (P11XorKeyDataDeriveBenchmark.cleanup
      (P11XorKeyDataDeriveBenchmark.crashtestdummy (xorDerive 5)).2).2.derived.session.objects =
        (xorDerive 5).derived.session.objects ∧
    (P11ECDH1DeriveBenchmark.crashtestdummy (ecdhDerive 5)).1 = none ∧
    (P11ECDH1DeriveBenchmark.cleanup
      (P11ECDH1DeriveBenchmark.crashtestdummy (ecdhDerive 5)).2).2.derived.session.objects =
        (ecdhDerive 5).derived.session.objects ∧
    (iterate (P11XorKeyDataDeriveBenchmark.variant (keyWithModulus 16)) true 3
      (xorDerive 5)).state.derived.session.object_count = 1 :=
  ⟨rfl, rfl,
    ((derive_and_destroy_no_leak (keyWithModulus 16) true 3 (xorDerive 5) (ecdhDerive 5)).1
      rfl).1,
    ((derive_and_destroy_no_leak (keyWithModulus 16) true 3 (xorDerive 5) (ecdhDerive 5)).1
      rfl).2.2.2,
    rfl,
    ((derive_and_destroy_no_leak (keyWithModulus 16) true 3 (xorDerive 5)
      (ecdhDerive 5)).2.2.2.2.2.1 rfl).2.2.2,
    (derive_and_destroy_no_leak (keyWithModulus 16) true 3 (xorDerive 5)
      (ecdhDerive 5)).2.2.2.2.1⟩

/-! ## Lemmas on decimal formatting -/

theorem digit_char_value (d : Nat) (h : d < 10) : (digit_char d).toNat - 48 = d := by
  interval_cases d <;> rfl

theorem digit_char_zero : digit_char 0 = '0' := by
  rfl

theorem digits_value_snoc (l : List Char) (c : Char) :
    digits_value (l ++ [c]) = 10 * digits_value l + (c.toNat - 48) := by
  simp [digits_value, List.foldl_append]

theorem digits_value_zeros (k : Nat) (l : List Char) :
    digits_value (List.replicate k '0' ++ l) = digits_value l := by
  induction k with
  | zero => simp
  | succ k ih =>
    have h0 : 10 * 0 + ('0'.toNat - 48) = 0 := by decide
    simp only [digits_value, List.replicate_succ, List.cons_append, List.foldl_cons, h0] at ih ⊢
    exact ih

theorem decimal_value : ∀ fuel n, n < fuel → digits_value (decimal fuel n) = n := by
  intro fuel
  induction fuel with
  | zero => intro n h; omega
  | succ fuel ih =>
    intro n h
    unfold decimal
    split
    · rename_i hlt
      have := digit_char_value n hlt
      simpa [digits_value] using this
    · rename_i hge
      rw [digits_value_snoc, ih (n / 10) (by omega),
        digit_char_value (n % 10) (Nat.mod_lt _ (by decide))]
      omega

theorem zero_padded_value (width n : Nat) : digits_value (zero_padded width n) = n := by
  unfold zero_padded to_decimal
  rw [digits_value_zeros]
  exact decimal_value (n + 1) n (Nat.lt_succ_self n)

theorem zero_padded_injective (width i j : Nat)
    (h : zero_padded width i = zero_padded width j) : i = j := by
  have := congrArg digits_value h
  rwa [zero_padded_value, zero_padded_value] at this

theorem temp_label_injective (thread_label : String) (i j : Nat)
    (h : temp_label thread_label i = temp_label thread_label j) : i = j := by
  have hd := congrArg String.data h
  simp only [temp_label, String.data_append, List.append_cancel_left_eq] at hd
  exact zero_padded_injective 6 i j hd

theorem fixed_digits_length (width n : Nat) : (fixed_digits width n).length = width := by
  induction width generalizing n with
  | zero => rfl
  | succ w ih => simp [fixed_digits, ih]

theorem fixed_digits_zero (width : Nat) : fixed_digits width 0 = List.replicate width '0' := by
  induction width with
  | zero => rfl
  | succ w ih =>
    simp only [fixed_digits, Nat.zero_div, Nat.zero_mod, ih, digit_char_zero]
    exact (List.replicate_succ' w '0').symm

theorem decimal_fuel : ∀ f1 f2 n, n < f1 → n < f2 → decimal f1 n = decimal f2 n := by
  intro f1
  induction f1 with
  | zero => intro f2 n h; omega
  | succ f1 ih =>
    intro f2 n h1 h2
    cases f2 with
    | zero => omega
    | succ f2 =>
      unfold decimal
      split
      · rfl
      · rw [ih f2 (n / 10) (by omega) (by omega)]

theorem to_decimal_small (n : Nat) (h : n < 10) : to_decimal n = [digit_char n] := by
  simp [to_decimal, decimal, h]

theorem to_decimal_large (n : Nat) (h : ¬ n < 10) :
    to_decimal n = to_decimal (n / 10) ++ [digit_char (n % 10)] := by
  unfold to_decimal
  rw [decimal]
  simp only [h, if_false]
  rw [decimal_fuel n (n / 10 + 1) (n / 10) (by omega) (by omega)]

theorem to_decimal_length_pos (n : Nat) : 0 < (to_decimal n).length := by
  by_cases h : n < 10
  · simp [to_decimal_small n h]
  · simp [to_decimal_large n h]

theorem zero_padded_eq_fixed : ∀ width n, 0 < width → n < 10 ^ width →
    zero_padded width n = fixed_digits width n := by
  intro width
  induction width with
  | zero => intro n h; omega
  | succ w ih =>
    intro n _ hn
    by_cases h : n < 10
    · have h1 : n / 10 = 0 := by omega
      have h2 : n % 10 = n := by omega
      simp [zero_padded, to_decimal_small n h, fixed_digits, h1, h2, fixed_digits_zero]
    · have hw : 0 < w := by
        rcases Nat.eq_zero_or_pos w with h0 | h0
        · subst h0; simp at hn; omega
        · exact h0
      have hdiv : n / 10 < 10 ^ w := by
        rw [Nat.pow_succ] at hn
        exact Nat.div_lt_of_lt_mul (by omega)
      have := ih (n / 10) hw hdiv
      simp only [fixed_digits, ← this, zero_padded, to_decimal_large n h, List.length_append,
        List.length_singleton, List.append_assoc]
      have : w + 1 - ((to_decimal (n / 10)).length + 1) = w - (to_decimal (n / 10)).length := by
        omega
      rw [this]

/-! ## Lemmas on the object-search variant -/

theorem generate_temp_keys_ok (thread_label : String) :
    ∀ k i keys s, (generate_temp_keys thread_label k i keys s).1 = none →
      (generate_temp_keys thread_label k i keys s).2.1.length = keys.length + k ∧
      (generate_temp_keys thread_label k i keys s).2.2.objects =
        s.objects ++ (List.range' i k).map fun j =>
          (⟨ObjectClass.SecretKey, temp_label thread_label j⟩ : TokenObject) := by
  intro k
  induction k with
  | zero => intro i keys s _; simp [generate_temp_keys]
  | succ k ih =>
    intro i keys s hok
    rcases hg : s.C_GenerateKey ⟨ObjectClass.SecretKey, temp_label thread_label i⟩ with
      code | ⟨h, s1⟩
    · simp [generate_temp_keys, hg] at hok
    · simp only [generate_temp_keys, hg] at hok ⊢
      obtain ⟨_, _, hs1⟩ := create_object_ok s _ h s1 hg
      obtain ⟨h1, h2⟩ := ih (i + 1) (keys ++ [h]) s1 hok
      refine ⟨by rw [h1]; simp; omega, ?_⟩
      rw [h2, hs1, objects_append_some]
      simp [List.range'_succ, Session.objects]

theorem generate_temp_keys_room (thread_label : String) :
    ∀ k i keys s, s.object_count + k ≤ s.capacity →
      (generate_temp_keys thread_label k i keys s).1 = none := by
  intro k
  induction k with
  | zero => intro i keys s _; rfl
  | succ k ih =>
    intro i keys s hroom
    have hc := create_object_room s ⟨ObjectClass.SecretKey, temp_label thread_label i⟩
      (by omega)
    simp only [generate_temp_keys, Session.C_GenerateKey, hc]
    apply ih
    have hcount : ∀ o : TokenObject,
        ({ slots := s.slots ++ [some o], capacity := s.capacity } : Session).object_count =
          s.object_count + 1 := by
      intro o
      simp [Session.object_count, Session.objects, List.reduceOption_append]
    rw [hcount]
    simp only
    omega

theorem find_objects_prepare_eq (build_threaded_label : String → Option Nat → String)
    (random : List Nat) (threadindex : Option Nat)
    (b : P11Benchmark (WithSession P11FindObjectsBenchmark)) :
    (P11FindObjectsBenchmark.prepare build_threaded_label random threadindex b).1 =
      (generate_temp_keys (build_threaded_label b.m_label threadindex) b.m_payload.length 0 []
        b.derived.session).1 ∧
    (P11FindObjectsBenchmark.prepare build_threaded_label random threadindex
        b).2.derived.session =
      (generate_temp_keys (build_threaded_label b.m_label threadindex) b.m_payload.length 0 []
        b.derived.session).2.2 ∧
    (P11FindObjectsBenchmark.prepare build_threaded_label random threadindex
        b).2.derived.self.m_temp_keys =
      (generate_temp_keys (build_threaded_label b.m_label threadindex) b.m_payload.length 0 []
        b.derived.session).2.1 ∧
    ((P11FindObjectsBenchmark.prepare build_threaded_label random threadindex b).1 = none →
      (P11FindObjectsBenchmark.prepare build_threaded_label random threadindex
          b).2.derived.self.m_search_template =
        [Attribute.Class ObjectClass.SecretKey,
         Attribute.Label (temp_label (build_threaded_label b.m_label threadindex) 0)]) := by
  rcases hg : generate_temp_keys (build_threaded_label b.m_label threadindex)
      b.m_payload.length 0 [] b.derived.session with ⟨_ | e, keys, s⟩ <;>
    simp [P11FindObjectsBenchmark.prepare, hg]

theorem zero_padded_below_50 :
    ∀ i, i < 50 →
      zero_padded 6 i = ['0', '0', '0', '0', digit_char (i / 10), digit_char (i % 10)] := by
  decide

theorem string_length_data (l : String) : l.length = l.data.length := by
  rfl

theorem replace_suffix_frame (l : String) (idx : Nat) (h : 6 ≤ l.length) :
    (replace_suffix l idx).length = l.length ∧
    (replace_suffix l idx).data.take (l.length - 6) = l.data.take (l.length - 6) ∧
    (replace_suffix l idx).data.drop (l.length - 6) = fixed_digits 6 idx := by
  have hl := string_length_data l
  have htake : (l.data.take (l.length - 6)).length = l.length - 6 := by
    rw [List.length_take, ← hl]; omega
  refine ⟨?_, ?_, ?_⟩
  · rw [string_length_data (replace_suffix l idx)]
    simp only [replace_suffix, List.length_append, htake, fixed_digits_length]
    omega
  · simp only [replace_suffix]
    exact List.take_left' htake
  · simp only [replace_suffix]
    exact List.drop_left' htake

theorem update_template_frame (template : AttributeContainer) (idx : Nat)
    (hlen : ∀ l, Attribute.Label l ∈ template → 6 ≤ l.length) :
    List.Forall₂ (SuffixUpdated idx) template (update_template template idx) := by
  induction template with
  | nil => exact List.Forall₂.nil
  | cons a t ih =>
    have ht : ∀ l, Attribute.Label l ∈ t → 6 ≤ l.length :=
      fun l hl => hlen l (List.mem_cons_of_mem _ hl)
    refine List.Forall₂.cons ?_ (ih ht)
    cases a with
    | Class c => simp [SuffixUpdated]
    | Label l =>
      obtain ⟨h1, h2, h3⟩ := replace_suffix_frame l idx (hlen l (List.mem_cons_self _ _))
      exact ⟨replace_suffix l idx, rfl, h1, h2, h3⟩

theorem update_template_labels (template : AttributeContainer) (idx : Nat)
    (hlen : ∀ l, Attribute.Label l ∈ template → 6 ≤ l.length) :
    ∀ l, Attribute.Label l ∈ update_template template idx → 6 ≤ l.length := by
  intro l hl
  simp only [update_template, List.mem_map] at hl
  obtain ⟨a, ha, haeq⟩ := hl
  cases a with
  | Class c => simp at haeq
  | Label l0 =>
    simp only [Attribute.Label.injEq] at haeq
    rw [← haeq, (replace_suffix_frame l0 idx (hlen l0 ha)).1]
    exact hlen l0 ha

theorem find_objects_ctd_template (b : P11Benchmark (WithSession P11FindObjectsBenchmark)) :
    (P11FindObjectsBenchmark.crashtestdummy b).2.derived.self.m_search_template =
      update_template b.derived.self.m_search_template b.derived.self.target_index := by
  unfold P11FindObjectsBenchmark.crashtestdummy
  simp only
  split <;> rfl

theorem temp_label_length (thread_label : String) (i : Nat) :
    6 ≤ (temp_label thread_label i).length := by
  rw [string_length_data]
  simp only [temp_label, String.data_append, List.length_append, zero_padded,
    List.length_replicate]
  omega

/-! ## The properties of the object-search variant -/

/-- C16: for the object-search variant, is_payload_supported returns false for
every payload size greater than the configured maximum corpus size, in every
state of the variant, so also before prepare has run; the maximum is 512
unless P11PERFTEST_FIND_MAXOBJS overrides it, and with the maximum 512 a
payload of 600 is rejected while a payload of 50 is accepted. -/
theorem find_objects_rejects_above_maximum (P11PERFTEST_FIND_MAXOBJS : Option Nat)
    (self : P11FindObjectsBenchmark) (payload_size : Nat)
    (h : find_maxobjs P11PERFTEST_FIND_MAXOBJS < payload_size) :
    P11FindObjectsBenchmark.is_payload_supported P11PERFTEST_FIND_MAXOBJS self payload_size =
      false ∧
    find_maxobjs none = 512 ∧
    (∀ n, find_maxobjs (some n) = n) ∧
    P11FindObjectsBenchmark.is_payload_supported none self 600 = false ∧
    P11FindObjectsBenchmark.is_payload_supported none self 50 = true := by
  refine ⟨?_, rfl, fun _ => rfl, rfl, rfl⟩
  simp only [P11FindObjectsBenchmark.is_payload_supported, decide_eq_false_iff_not]
  omega

/-- C16 at a concrete object: a freshly constructed object-search variant,
with the maximum left at 512, rejects the payload 600. -/
theorem find_objects_rejects_above_maximum_witness :
    find_maxobjs none < 600 ∧
    P11FindObjectsBenchmark.is_payload_supported none
      (findObjectsWithPayload 600 1000).derived.self 600 = false :=
  ⟨by decide, (find_objects_rejects_above_maximum none
    (findObjectsWithPayload 600 1000).derived.self 600 (by decide)).1⟩

/-- C17: for the object-search variant with a payload of N bytes and the thread
label given by build_threaded_label, prepare returns normally when the token
has room for N more objects, and when it returns normally it has created
exactly N objects on the token, in order, the i-th (i from 0 to N - 1) a secret
key labelled with the thread label, -tmp- and i in decimal zero-padded to 6
digits, and it holds their N handles.  Labels of different indices are
different, and for an index below 50 the suffix is 0000 followed by the two
digits of the index, from 000000 to 000049. -/
theorem find_objects_prepare_corpus (build_threaded_label : String → Option Nat → String)
    (random : List Nat) (threadindex : Option Nat)
    (b : P11Benchmark (WithSession P11FindObjectsBenchmark)) :
    (b.derived.session.object_count + b.m_payload.length ≤ b.derived.session.capacity →
      (P11FindObjectsBenchmark.prepare build_threaded_label random threadindex b).1 = none) ∧
    ((P11FindObjectsBenchmark.prepare build_threaded_label random threadindex b).1 = none →
      (P11FindObjectsBenchmark.prepare build_threaded_label random threadindex
          b).2.derived.session.objects =
        b.derived.session.objects ++ (List.range b.m_payload.length).map (fun i =>
          (⟨ObjectClass.SecretKey,
            temp_label (build_threaded_label b.m_label threadindex) i⟩ : TokenObject)) ∧
      (P11FindObjectsBenchmark.prepare build_threaded_label random threadindex
          b).2.derived.session.object_count =
        b.derived.session.object_count + b.m_payload.length ∧
      (P11FindObjectsBenchmark.prepare build_threaded_label random threadindex
          b).2.derived.self.m_temp_keys.length = b.m_payload.length) ∧
    (∀ thread_label i,
      temp_label thread_label i = thread_label ++ "-tmp-" ++ String.mk (zero_padded 6 i)) ∧
    (∀ thread_label i j, temp_label thread_label i = temp_label thread_label j → i = j) ∧
    (∀ thread_label i, i < 50 →
      temp_label thread_label i =
        thread_label ++ "-tmp-" ++
          String.mk ['0', '0', '0', '0', digit_char (i / 10), digit_char (i % 10)]) ∧
    (∀ thread_label, temp_label thread_label 0 = thread_label ++ "-tmp-000000") ∧
    (∀ thread_label, temp_label thread_label 49 = thread_label ++ "-tmp-000049") := by
  obtain ⟨h1, h2, h3, _⟩ := find_objects_prepare_eq build_threaded_label random threadindex b
  refine ⟨?_, ?_, fun _ _ => rfl, temp_label_injective, ?_, ?_, ?_⟩
  · intro hroom
    rw [h1]
    exact generate_temp_keys_room _ _ 0 [] _ hroom
  · intro hok
    rw [h1] at hok
    obtain ⟨g1, g2⟩ := generate_temp_keys_ok _ _ 0 [] _ hok
    rw [h2, h3]
    refine ⟨?_, ?_, ?_⟩
    · rw [g2, List.range_eq_range']
    · simp [Session.object_count, g2]
    · simpa using g1
  · intro thread_label i hi
    simp only [temp_label, zero_padded_below_50 i hi]
  · intro thread_label
    simp only [temp_label, zero_padded_below_50 0 (by decide), String.append_assoc]
    congr 1
  · intro thread_label
    simp only [temp_label, zero_padded_below_50 49 (by decide), String.append_assoc]
    congr 1

/-- C17 at a concrete run: with a payload of 3 bytes on a token that holds one
key and has room for 10 objects, prepare returns normally and the token then
holds 4 objects. -/
theorem find_objects_prepare_corpus_witness :
    (findObjectsWithPayload 3 10).derived.session.object_count +
        (findObjectsWithPayload 3 10).m_payload.length ≤
      (findObjectsWithPayload 3 10).derived.session.capacity ∧
    (P11FindObjectsBenchmark.prepare threadLabel [5, 1, 9, 2] none
      (findObjectsWithPayload 3 10)).1 = none ∧
    (P11FindObjectsBenchmark.prepare threadLabel [5, 1, 9, 2] none
        (findObjectsWithPayload 3 10)).2.derived.session.object_count =
      (findObjectsWithPayload 3 10).derived.session.object_count +
        (findObjectsWithPayload 3 10).m_payload.length :=
  ⟨by decide,
    (find_objects_prepare_corpus threadLabel [5, 1, 9, 2] none (findObjectsWithPayload 3 10)).1
      (by decide),
    ((find_objects_prepare_corpus threadLabel [5, 1, 9, 2] none
      (findObjectsWithPayload 3 10)).2.1 rfl).2.1⟩

/-- C18: for the object-search variant whose search template holds labels of at
least 6 characters, as the template built by prepare does, an invocation of
crashtestdummy leaves the number of attributes of the template and every
class attribute unchanged, and in the label attribute it keeps the length
and everything before the last 6 characters and sets the last 6 characters
to the 6 digits of the target index, which is the zero-padded index when it
is below one million; the labels of the new template again have at least 6
characters, so the same holds at every later invocation. -/
theorem find_objects_template_frame
    (b : P11Benchmark (WithSession P11FindObjectsBenchmark))
    (hlen : ∀ l, Attribute.Label l ∈ b.derived.self.m_search_template → 6 ≤ l.length) :
    (P11FindObjectsBenchmark.crashtestdummy b).2.derived.self.m_search_template.length =
      b.derived.self.m_search_template.length ∧
    List.Forall₂ (SuffixUpdated b.derived.self.target_index)
      b.derived.self.m_search_template
      (P11FindObjectsBenchmark.crashtestdummy b).2.derived.self.m_search_template ∧
    (b.derived.self.target_index < 10 ^ 6 →
      fixed_digits 6 b.derived.self.target_index =
        zero_padded 6 b.derived.self.target_index) ∧
    (∀ l, Attribute.Label l ∈
        (P11FindObjectsBenchmark.crashtestdummy b).2.derived.self.m_search_template →
      6 ≤ l.length) ∧
    (∀ (build_threaded_label : String → Option Nat → String) (random : List Nat)
      (threadindex : Option Nat) (b0 : P11Benchmark (WithSession P11FindObjectsBenchmark)),
      (P11FindObjectsBenchmark.prepare build_threaded_label random threadindex b0).1 = none →
      (P11FindObjectsBenchmark.prepare build_threaded_label random threadindex
          b0).2.derived.self.m_search_template =
        [Attribute.Class ObjectClass.SecretKey,
         Attribute.Label (temp_label (build_threaded_label b0.m_label threadindex) 0)] ∧
      ∀ l, Attribute.Label l ∈
          (P11FindObjectsBenchmark.prepare build_threaded_label random threadindex
            b0).2.derived.self.m_search_template →
        6 ≤ l.length) := by
  rw [find_objects_ctd_template]
  refine ⟨by simp [update_template], update_template_frame _ _ hlen, ?_,
    update_template_labels _ _ hlen, ?_⟩
  · intro hidx
    exact (zero_padded_eq_fixed 6 _ (by decide) hidx).symm
  · intro build_threaded_label random threadindex b0 hok
    have ht := (find_objects_prepare_eq build_threaded_label random threadindex b0).2.2.2 hok
    refine ⟨ht, ?_⟩
    intro l hl
    rw [ht] at hl
    simp only [List.mem_cons, Attribute.Label.injEq, List.mem_singleton, reduceCtorEq,
      false_or] at hl
    rcases hl with hl | hl
    · rw [hl]; exact temp_label_length _ _
    · simp at hl

/-- C18 at a concrete run: after prepare with a payload of 3 bytes, the
template holds a label of 16 characters, and crashtestdummy leaves a template
of 2 attributes. -/
theorem find_objects_template_frame_witness :
    (∀ l, Attribute.Label l ∈
        (P11FindObjectsBenchmark.prepare threadLabel [5, 1, 9, 2] none
          (findObjectsWithPayload 3 10)).2.derived.self.m_search_template →
      6 ≤ l.length) ∧
    (P11FindObjectsBenchmark.crashtestdummy
      (P11FindObjectsBenchmark.prepare threadLabel [5, 1, 9, 2] none
        (findObjectsWithPayload 3 10)).2).2.derived.self.m_search_template.length =
      (P11FindObjectsBenchmark.prepare threadLabel [5, 1, 9, 2] none
        (findObjectsWithPayload 3 10)).2.derived.self.m_search_template.length :=
  ⟨by
    intro l hl
    have : l = "label-tmp-000000" := by
      have hl2 : Attribute.Label l ∈
          [Attribute.Class ObjectClass.SecretKey, Attribute.Label "label-tmp-000000"] := hl
      simpa using hl2
    rw [this]
    decide,
   (find_objects_template_frame
      (P11FindObjectsBenchmark.prepare threadLabel [5, 1, 9, 2] none
        (findObjectsWithPayload 3 10)).2
      (by
        intro l hl
        have : l = "label-tmp-000000" := by
          have hl2 : Attribute.Label l ∈
              [Attribute.Class ObjectClass.SecretKey, Attribute.Label "label-tmp-000000"] := hl
          simpa using hl2
        rw [this]
        decide)).1⟩

/-! ## The properties of the timer state, the messages and the default hooks -/

/-- C21: elapsed returns the accumulated time m_timer; it is a reading of the
state, which it leaves as it is (reading after a reading gives the same
state and value).  The accumulated time is zero for a freshly constructed
benchmark and immediately after reset_timer, which also records the current
instant as the baseline. -/
theorem elapsed_reads_accumulator {τ V : Type} (b : P11Benchmark τ) (name label : String)
    (objectclass : ObjectClass) (vendor : V) (now : Nat) (derived : τ) :
    b.elapsed = b.m_timer ∧
    (P11Benchmark.construct name label objectclass vendor now derived).elapsed = 0 ∧
    b.reset_timer.elapsed = 0 ∧
    b.reset_timer.m_last_clock = b.now ∧
    b.reset_timer.reset_timer.elapsed = 0 := by
  exact ⟨rfl, rfl, rfl, rfl, rfl⟩

theorem string_append_inner_cancel (p s a c : String) (h : p ++ a ++ s = p ++ c ++ s) :
    a = c := by
  have hd := congrArg String.data h
  simp only [String.data_append, List.append_cancel_right_eq, List.append_cancel_left_eq] at hd
  exact String.ext hd

/-- C22: NotFound built from a label, from a std::string or from a C string
alike, has the message made of Object with label, the label between single
quotes, and not found; two such messages are equal exactly when the labels
are equal. -/
theorem not_found_message (label other : String) :
    (NotFound.from_string label).what =
      "Object with label \x27" ++ label ++ "\x27 not found" ∧
    (NotFound.from_c_string label).what = (NotFound.from_string label).what ∧
    ((NotFound.from_string label).what = (NotFound.from_string other).what ↔
      label = other) := by
  refine ⟨rfl, rfl, ⟨?_, fun h => by rw [h]⟩⟩
  intro h
  exact string_append_inner_cancel _ _ _ _ h

/-- C23: AmbiguousResult built from a label, from a std::string or from a C
string alike, has the message made of Multiple objects with label, the label
between single quotes, and found; two such messages are equal exactly when
the labels are equal, and no such message equals the message of a NotFound,
whatever the labels. -/
theorem ambiguous_result_message (label other : String) :
    (AmbiguousResult.from_string label).what =
      "Multiple objects with label \x27" ++ label ++ "\x27 found" ∧
    (AmbiguousResult.from_c_string label).what = (AmbiguousResult.from_string label).what ∧
    ((AmbiguousResult.from_string label).what = (AmbiguousResult.from_string other).what ↔
      label = other) ∧
    (AmbiguousResult.from_string label).what ≠ (NotFound.from_string other).what ∧
    (AmbiguousResult.from_c_string label).what ≠ (NotFound.from_c_string other).what := by
  have hne : ∀ a c : String,
      "Multiple objects with label \x27" ++ a ++ "\x27 found" ≠
        "Object with label \x27" ++ c ++ "\x27 not found" := by
    intro a c h
    have hd := congrArg (fun s : String => s.data.head?) h
    simp [String.data_append] at hd
  refine ⟨rfl, rfl, ⟨?_, fun h => by rw [h]⟩, hne label other, hne label other⟩
  intro h
  exact string_append_inner_cancel _ _ _ _ h

theorem to_decimal_injective (n m : Nat) (h : to_decimal n = to_decimal m) : n = m := by
  have hv := congrArg digits_value h
  unfold to_decimal at hv
  rwa [decimal_value (n + 1) n (Nat.lt_succ_self n),
    decimal_value (m + 1) m (Nat.lt_succ_self m)] at hv

/-- C24: PayloadSizeNotSupported built from a size holds that size, and its
message is made of Payload with size, the size in decimal, and is not
supported for this benchmark; two such messages are equal exactly when the
sizes are equal. -/
theorem payload_size_message (size other : Nat) :
    (PayloadSizeNotSupported.from_size size).m_size = size ∧
    (PayloadSizeNotSupported.from_size size).what =
      "Payload with size " ++ to_string size ++ " is not supported for this benchmark" ∧
    to_string size = String.mk (to_decimal size) ∧
    digits_value (to_decimal size) = size ∧
    ((PayloadSizeNotSupported.from_size size).what =
        (PayloadSizeNotSupported.from_size other).what ↔ size = other) ∧
    (PayloadSizeNotSupported.from_size 600).what =
      "Payload with size 600 is not supported for this benchmark" := by
  refine ⟨rfl, rfl, rfl, decimal_value (size + 1) size (Nat.lt_succ_self size),
    ⟨?_, fun h => by rw [h]⟩, by decide⟩
  intro h
  have hs := string_append_inner_cancel _ _ _ _ h
  have hd := congrArg String.data hs
  exact to_decimal_injective size other hd

/-- C25: the default cleanup and the default teardown return normally and leave
the whole state as it is: the name, the label, the payload, the timer and its
baseline, and the members of the derived class; when these hold a token
session, the session is the same, so no call to the token was issued. -/
theorem default_hooks_do_nothing {τ α : Type} (b : P11Benchmark τ)
    (w : P11Benchmark (WithSession α)) (threadindex : Option Nat) :
    b.cleanup = (none, b) ∧
    P11Benchmark.teardown threadindex b = (none, b) ∧
    b.cleanup.2.m_name = b.m_name ∧ b.cleanup.2.m_label = b.m_label ∧
    b.cleanup.2.m_payload = b.m_payload ∧ b.cleanup.2.m_timer = b.m_timer ∧
    b.cleanup.2.m_last_clock = b.m_last_clock ∧
    (P11Benchmark.teardown threadindex b).2.m_name = b.m_name ∧
    (P11Benchmark.teardown threadindex b).2.m_label = b.m_label ∧
    (P11Benchmark.teardown threadindex b).2.m_payload = b.m_payload ∧
    (P11Benchmark.teardown threadindex b).2.m_timer = b.m_timer ∧
    (P11Benchmark.teardown threadindex b).2.m_last_clock = b.m_last_clock ∧
    w.cleanup.2.derived.session = w.derived.session ∧
    (P11Benchmark.teardown threadindex w).2.derived.session = w.derived.session := by
  exact ⟨rfl, rfl, rfl, rfl, rfl, rfl, rfl, rfl, rfl, rfl, rfl, rfl, rfl, rfl⟩

/-! ## More properties of the OAEP encryption variant -/

theorem oaep_prepare_ok_inv (self : P11OAEPEncryptBenchmark) (obj : Object)
    (hok : (self.prepare obj).1 = none) :
    ∃ modulus, obj.get_attribute_value AttributeType.Modulus = Except.ok modulus := by
  rcases hg : obj.get_attribute_value AttributeType.Modulus with code | modulus
  · simp [P11OAEPEncryptBenchmark.prepare, hg] at hok
  · exact ⟨modulus, rfl⟩

theorem oaep_is_payload_supported_eq (self : P11OAEPEncryptBenchmark) (size : Nat) :
    (self.is_payload_supported size = true ↔
      self.m_modulus_size_bytes = 0 ∨
        size ≤ size_t_sub (size_t_sub self.m_modulus_size_bytes
          (size_t_mul 2 self.m_hashalg.digest_length)) 2) := by
  by_cases hm : self.m_modulus_size_bytes = 0
  · simp [P11OAEPEncryptBenchmark.is_payload_supported, hm]
  · cases hh : self.m_hashalg <;>
      simp [P11OAEPEncryptBenchmark.is_payload_supported, hm, hh, HashAlg.digest_length]

/-- C26: after prepare has returned normally, the OAEP parameters follow the
hash algorithm chosen at construction: CKM_SHA_1 with CKG_MGF1_SHA1 for SHA1,
CKM_SHA256 with CKG_MGF1_SHA256 for SHA256; the mask generation function runs
on the digest of the parameters, as it does in a freshly constructed object,
and the digest length h of that digest (20 or 32) is the one in the bound of
is_payload_supported. -/
theorem oaep_parameters_follow_hash (self : P11OAEPEncryptBenchmark) (obj : Object)
    (hok : (self.prepare obj).1 = none) :
    (self.prepare obj).2.m_hashalg = self.m_hashalg ∧
    (self.prepare obj).2.m_rsa_pkcs_oaep_params.hashAlg =
      (match self.m_hashalg with
        | HashAlg.SHA1 => CKM_SHA_1
        | HashAlg.SHA256 => CKM_SHA256) ∧
    (self.prepare obj).2.m_rsa_pkcs_oaep_params.mgf =
      (match self.m_hashalg with
        | HashAlg.SHA1 => CKG_MGF1_SHA1
        | HashAlg.SHA256 => CKG_MGF1_SHA256) ∧
    mgf_digest (self.prepare obj).2.m_rsa_pkcs_oaep_params.mgf =
      some (self.prepare obj).2.m_rsa_pkcs_oaep_params.hashAlg ∧
    (∀ hashalg : HashAlg,
      mgf_digest ({ m_hashalg := hashalg } : P11OAEPEncryptBenchmark).m_rsa_pkcs_oaep_params.mgf =
        some ({ m_hashalg := hashalg } : P11OAEPEncryptBenchmark).m_rsa_pkcs_oaep_params.hashAlg) ∧
    ∃ h, mechanism_digest_length (self.prepare obj).2.m_rsa_pkcs_oaep_params.hashAlg = some h ∧
      (h = 20 ∨ h = 32) ∧
      ∀ size, ((self.prepare obj).2.is_payload_supported size = true ↔
        (self.prepare obj).2.m_modulus_size_bytes = 0 ∨
          size ≤ size_t_sub (size_t_sub (self.prepare obj).2.m_modulus_size_bytes
            (size_t_mul 2 h)) 2) := by
  obtain ⟨modulus, hg⟩ := oaep_prepare_ok_inv self obj hok
  have hkey := oaep_is_payload_supported_eq (self.prepare obj).2
  cases hh : self.m_hashalg
  · have hp : (self.prepare obj).2.m_hashalg = HashAlg.SHA1 := by
      simp [P11OAEPEncryptBenchmark.prepare, hg, hh]
    rw [hp] at hkey
    refine ⟨hp, ?_, ?_, ?_, fun _ => rfl, 20, ?_, Or.inl rfl, hkey⟩ <;>
      simp [P11OAEPEncryptBenchmark.prepare, hg, hh, mgf_digest, mechanism_digest_length,
        CKG_MGF1_SHA1, CKG_MGF1_SHA256, CKM_SHA_1, CKM_SHA256]
  · have hp : (self.prepare obj).2.m_hashalg = HashAlg.SHA256 := by
      simp [P11OAEPEncryptBenchmark.prepare, hg, hh]
    rw [hp] at hkey
    refine ⟨hp, ?_, ?_, ?_, fun _ => rfl, 32, ?_, Or.inr rfl, hkey⟩ <;>
      simp [P11OAEPEncryptBenchmark.prepare, hg, hh, mgf_digest, mechanism_digest_length,
        CKG_MGF1_SHA1, CKG_MGF1_SHA256, CKM_SHA_1, CKM_SHA256]

/-- C26 at a concrete key: a SHA256 variant prepared on a key of 64 bytes has
the digest CKM_SHA256 in its parameters. -/
theorem oaep_parameters_follow_hash_witness :
    (P11OAEPEncryptBenchmark.prepare { m_hashalg := HashAlg.SHA256 } (keyWithModulus 64)).1 =
      none ∧
    (P11OAEPEncryptBenchmark.prepare { m_hashalg := HashAlg.SHA256 }
      (keyWithModulus 64)).2.m_rsa_pkcs_oaep_params.hashAlg = CKM_SHA256 :=
  ⟨rfl, (oaep_parameters_follow_hash { m_hashalg := HashAlg.SHA256 } (keyWithModulus 64)
    rfl).2.1⟩

/-- C27: in is_payload_supported the bound is computed in unsigned 64-bit
arithmetic.  For a modulus size m with 0 < m < 2*h + 2, h the digest length,
the subtraction wraps around: the bound is 2^64 - (2*h + 2 - m), and a
payload size is accepted exactly when it is at most that number, although
m - 2*h - 2 is negative. -/
theorem oaep_bound_wraps_around (self : P11OAEPEncryptBenchmark) (size : Nat)
    (hpos : 0 < self.m_modulus_size_bytes)
    (hsmall : self.m_modulus_size_bytes < 2 * self.m_hashalg.digest_length + 2) :
    size_t_sub (size_t_sub self.m_modulus_size_bytes
        (size_t_mul 2 self.m_hashalg.digest_length)) 2 =
      2 ^ 64 - (2 * self.m_hashalg.digest_length + 2 - self.m_modulus_size_bytes) ∧
    (self.is_payload_supported size = true ↔
      size ≤ 2 ^ 64 - (2 * self.m_hashalg.digest_length + 2 - self.m_modulus_size_bytes)) ∧
    (self.m_modulus_size_bytes : Int) - 2 * self.m_hashalg.digest_length - 2 < 0 ∧
    (self.m_hashalg = HashAlg.SHA1 → 2 * self.m_hashalg.digest_length + 2 = 42) ∧
    (self.m_hashalg = HashAlg.SHA256 → 2 * self.m_hashalg.digest_length + 2 = 66) := by
  have hb : size_t_sub (size_t_sub self.m_modulus_size_bytes
        (size_t_mul 2 self.m_hashalg.digest_length)) 2 =
      2 ^ 64 - (2 * self.m_hashalg.digest_length + 2 - self.m_modulus_size_bytes) := by
    cases hh : self.m_hashalg <;>
      simp only [hh, HashAlg.digest_length] at hsmall ⊢ <;>
      simp only [size_t_sub, size_t_mul] <;>
      omega
  have hk := oaep_is_payload_supported_eq self size
  rw [hb] at hk
  refine ⟨hb, ?_, by omega, ?_, ?_⟩
  · rw [hk]
    constructor
    · rintro (h0 | h1)
      · omega
      · exact h1
    · intro h1; exact Or.inr h1
  · intro hh; rw [hh]; rfl
  · intro hh; rw [hh]; rfl

/-- C27 at a concrete state: with SHA256 and a modulus of 64 bytes the bound
is 2^64 - 2, and the payload size 2^64 - 2 is accepted. -/
theorem oaep_bound_wraps_around_witness :
    0 < ({ m_hashalg := HashAlg.SHA256, m_modulus_size_bytes := 64 } :
      P11OAEPEncryptBenchmark).m_modulus_size_bytes ∧
    ({ m_hashalg := HashAlg.SHA256, m_modulus_size_bytes := 64 } :
        P11OAEPEncryptBenchmark).m_modulus_size_bytes <
      2 * HashAlg.SHA256.digest_length + 2 ∧
    ({ m_hashalg := HashAlg.SHA256, m_modulus_size_bytes := 64 } :
      P11OAEPEncryptBenchmark).is_payload_supported (2 ^ 64 - 2) = true :=
  ⟨by decide, by decide,
    ((oaep_bound_wraps_around { m_hashalg := HashAlg.SHA256, m_modulus_size_bytes := 64 }
      (2 ^ 64 - 2) (by decide) (by decide)).2.1).mpr (by decide)⟩

/-- C28: the copy constructor and clone keep the hash algorithm and do not
copy the modulus size, which is 0 in the copy, whatever the state of the
original; so the copy accepts every payload size until its own prepare has
run, which resolves the modulus size anew.  For instance a SHA256 original
with the resolved modulus size 256 rejects the size 191, and its clone
accepts it. -/
theorem oaep_clone_forgets_modulus (original : P11OAEPEncryptBenchmark) (size : Nat)
    (obj : Object) :
    original.clone = original.copy ∧
    original.clone.m_hashalg = original.m_hashalg ∧
    original.clone.m_modulus_size_bytes = 0 ∧
    original.clone.is_payload_supported size = true ∧
    (∀ modulus, obj.get_attribute_value AttributeType.Modulus = Except.ok modulus →
      (original.clone.prepare obj).2.m_modulus_size_bytes = modulus.length ∧
      (original.clone.prepare obj).2.m_hashalg = original.m_hashalg) ∧
    ({ m_hashalg := HashAlg.SHA256, m_modulus_size_bytes := 256 } :
      P11OAEPEncryptBenchmark).is_payload_supported 191 = false ∧
    ({ m_hashalg := HashAlg.SHA256, m_modulus_size_bytes := 256 } :
      P11OAEPEncryptBenchmark).clone.is_payload_supported 191 = true := by
  refine ⟨rfl, rfl, rfl, ?_, ?_, by decide, by decide⟩
  · simp [P11OAEPEncryptBenchmark.is_payload_supported, P11OAEPEncryptBenchmark.clone,
      P11OAEPEncryptBenchmark.copy]
  · intro modulus hm
    obtain ⟨_, h1, h2⟩ := oaep_prepare_resolved original.clone obj modulus hm
    exact ⟨h1, h2⟩

/-- C28 at a concrete object: the clone of a prepared SHA1 variant, prepared
in its turn on a key of 64 bytes, has the modulus size 64. -/
theorem oaep_clone_forgets_modulus_witness :
    (keyWithModulus 64).get_attribute_value AttributeType.Modulus =
      Except.ok (List.replicate 64 1) ∧
    ((P11OAEPEncryptBenchmark.clone
      { m_hashalg := HashAlg.SHA1, m_modulus_size_bytes := 128 }).prepare
        (keyWithModulus 64)).2.m_modulus_size_bytes = (List.replicate 64 1).length :=
  ⟨rfl, ((oaep_clone_forgets_modulus { m_hashalg := HashAlg.SHA1, m_modulus_size_bytes := 128 }
    0 (keyWithModulus 64)).2.2.2.2.1 (List.replicate 64 1) rfl).1⟩

/-- C29: in every state of the OAEP encryption variant (any hash algorithm,
any modulus size), is_payload_supported is downward closed: when it accepts
the size n it accepts every size k at most n; and, whether or not it accepts
any other size, it accepts the size 0. -/
theorem oaep_downward_closed (self : P11OAEPEncryptBenchmark) (n k : Nat) :
    (self.is_payload_supported n = true → k ≤ n → self.is_payload_supported k = true) ∧
    self.is_payload_supported 0 = true := by
  refine ⟨?_, ?_⟩
  · intro hacc hk
    rw [oaep_is_payload_supported_eq] at hacc ⊢
    rcases hacc with h0 | h1
    · exact Or.inl h0
    · exact Or.inr (Nat.le_trans hk h1)
  · rw [oaep_is_payload_supported_eq]
    by_cases hm : self.m_modulus_size_bytes = 0
    · exact Or.inl hm
    · exact Or.inr (Nat.zero_le _)

/-- C29 at concrete states: a SHA256 variant with modulus size 256 accepts
190, hence 100; and with modulus size 66, where the bound is 0, it accepts the
size 0. -/
theorem oaep_downward_closed_witness :
    ({ m_hashalg := HashAlg.SHA256, m_modulus_size_bytes := 256 } :
      P11OAEPEncryptBenchmark).is_payload_supported 190 = true ∧
    100 ≤ 190 ∧
    ({ m_hashalg := HashAlg.SHA256, m_modulus_size_bytes := 256 } :
      P11OAEPEncryptBenchmark).is_payload_supported 100 = true ∧
    ({ m_hashalg := HashAlg.SHA256, m_modulus_size_bytes := 66 } :
      P11OAEPEncryptBenchmark).is_payload_supported 1 = false ∧
    ({ m_hashalg := HashAlg.SHA256, m_modulus_size_bytes := 66 } :
      P11OAEPEncryptBenchmark).is_payload_supported 0 = true :=
  ⟨by decide, by decide,
    (oaep_downward_closed { m_hashalg := HashAlg.SHA256, m_modulus_size_bytes := 256 }
      190 100).1 (by decide) (by decide),
    by decide,
    (oaep_downward_closed { m_hashalg := HashAlg.SHA256, m_modulus_size_bytes := 66 }
      0 0).2⟩

/-- C30: the display name of an OAEP encryption variant is RSA PKCS#1 OAEP
encryption (SHA1) when it is constructed with SHA1 and RSA PKCS#1 OAEP
encryption (SHA256) when it is constructed with SHA256, whatever the label,
the vendor and the instant of construction; the two names are different, and
the label is the one given. -/
theorem oaep_display_name {V : Type} (label : String) (vendor : V) (now : Nat) :
    (P11OAEPEncryptBenchmark.construct label vendor HashAlg.SHA1 now).name =
      "RSA PKCS#1 OAEP encryption (SHA1)" ∧
    (P11OAEPEncryptBenchmark.construct label vendor HashAlg.SHA256 now).name =
      "RSA PKCS#1 OAEP encryption (SHA256)" ∧
    (P11OAEPEncryptBenchmark.construct label vendor HashAlg.SHA1 now).name ≠
      (P11OAEPEncryptBenchmark.construct label vendor HashAlg.SHA256 now).name ∧
    (P11OAEPEncryptBenchmark.construct label vendor HashAlg.SHA1 now).label = label ∧
    (P11OAEPEncryptBenchmark.construct label vendor HashAlg.SHA1 now).derived.m_hashalg =
      HashAlg.SHA1 := by
  have h1 : (P11OAEPEncryptBenchmark.construct label vendor HashAlg.SHA1 now).name =
      "RSA PKCS#1 OAEP encryption (SHA1)" := rfl
  have h256 : (P11OAEPEncryptBenchmark.construct label vendor HashAlg.SHA256 now).name =
      "RSA PKCS#1 OAEP encryption (SHA256)" := rfl
  refine ⟨h1, h256, ?_, rfl, rfl⟩
  rw [h1, h256]
  decide

end P11
